import Mathlib

/-!
# Power-management supervisor of esp-miner-multichip

Shallow embedding of `main/tasks/power_management_task.c`: the fan curve
`automatic_fan_speed` and the supervisory loop `POWER_MANAGEMENT_task`
(start-up section, one poll cycle, and the loop over a finite run of cycles).

Modelling conventions
* C `float`/`double` quantities (temperatures, voltages, fan percentages) are
  rationals: every comparison of the source is an exact comparison of the
  stored values, and the arithmetic of the fan curve is taken without rounding.
* Driver calls are external. The value a driver returns during a cycle is a
  field of `Sensors`; each call, read or write, is recorded in the trace of
  the `World` in program order.
* `exit(EXIT_FAILURE)` ends the task: a cycle returns `Outcome.exited`.
* Symbols declared in headers that are not part of the sources at hand
  (`TPS546_INIT_VOUT_MIN`, `CONFIG_ASIC_FREQUENCY`) are parameters, collected
  in `BuildConfig`.
-/

namespace PowerManagement

/-! ## Data model -/

/-- Device models tested by the task; `DEVICE_UNKNOWN` stands for every value
that reaches the `default:` label of the switches. -/
inductive DeviceModel
  | DEVICE_UNKNOWN
  | DEVICE_MAX
  | DEVICE_ULTRA
  | DEVICE_SUPRA
  | DEVICE_HEX
  deriving DecidableEq, Repr

/-- ASIC models tested by the task; `ASIC_UNKNOWN` stands for every other value. -/
inductive AsicModel
  | ASIC_UNKNOWN
  | ASIC_BM1397
  | ASIC_BM1366
  | ASIC_BM1368
  deriving DecidableEq, Repr

/-- Keys of the configuration store. The five named keys are the ones the task
uses; `other n` stands for every further key of the store. -/
inductive NvsKey
  | NVS_CONFIG_ASIC_VOLTAGE
  | NVS_CONFIG_ASIC_FREQ
  | NVS_CONFIG_FAN_SPEED
  | NVS_CONFIG_AUTO_FAN_SPEED
  | NVS_CONFIG_OVERHEAT_MODE
  | other (n : Nat)
  deriving DecidableEq, Repr

/-- Content of the configuration store: a key is absent or holds a number. -/
abbrev NvsStore := NvsKey → Option Nat

/-- Modelled from the spec: `nvs_config_get_u16` of nvs_config.h is not among the
sources; per the interface `get_u16(key, default) -> value` it returns the stored
value, or the default for an absent key, as a 16-bit unsigned number. -/
def nvs_config_get_u16 (s : NvsStore) (key : NvsKey) (default_value : Nat) : Nat :=
  ((s key).getD default_value) % 65536

/-- Modelled from the spec: `nvs_config_set_u16` of nvs_config.h is not among the
sources; per the interface `set_u16(key, value)` it stores the 16-bit value under
the key and leaves every other key alone. -/
def nvs_config_set_u16 (s : NvsStore) (key : NvsKey) (value : Nat) : NvsStore :=
  fun k => if k = key then some (value % 65536) else s k

/-- Fields of `PowerManagementModule` that the task reads or writes. -/
structure PowerManagementModule where
  fan_perc : ℚ
  fan_rpm : ℚ
  chip_temp_avg : ℚ
  vr_temp : ℚ
  board_temp_1 : ℚ
  board_temp_2 : ℚ
  voltage : ℚ
  frequency_multiplier : ℚ
  frequency_value : ℚ
  power : ℚ
  current : ℚ
  HAS_POWER_EN : Bool
  HAS_PLUG_SENSE : Bool

/-- Fields of `GlobalState` that the task reads or writes. -/
structure GlobalState where
  device_model : DeviceModel
  asic_model : AsicModel
  board_version : Int
  POWER_MANAGEMENT_MODULE : PowerManagementModule

/-- Constants taken from headers and build configuration outside the sources. -/
structure BuildConfig where
  CONFIG_ASIC_FREQUENCY : Nat
  TPS546_INIT_VOUT_MIN : ℚ

/-- Values the drivers return during one pass (start-up section or one poll
cycle). The HEX branch reads the two TMP1075 sensors twice per cycle; the
second pair of readings is `TMP1075_read_temperature_again`. -/
structure Sensors where
  TPS546_get_vin : ℚ
  TPS546_get_iout : ℚ
  TPS546_get_vout : ℚ
  TPS546_get_temperature : ℚ
  INA260_installed : Bool
  INA260_read_voltage : ℚ
  INA260_read_current : ℚ
  INA260_read_power : ℚ
  EMC2101_get_fan_speed : ℚ
  EMC2101_get_external_temp : ℚ
  EMC2101_get_internal_temp : ℚ
  EMC2302_get_fan_speed : Nat → ℚ
  TMP1075_read_temperature : Nat → ℚ
  TMP1075_read_temperature_again : Nat → ℚ
  gpio_get_level : Nat → Int

/-- External calls made by the task, with the arguments passed. -/
inductive Action
  | TPS546_get_vin
  | TPS546_get_iout
  | TPS546_get_vout
  | TPS546_get_temperature
  | INA260_installed
  | INA260_read_voltage
  | INA260_read_current
  | INA260_read_power
  | EMC2101_get_fan_speed
  | EMC2101_get_external_temp
  | EMC2101_get_internal_temp
  | EMC2302_get_fan_speed (i : Nat)
  | TMP1075_read_temperature (i : Nat)
  | EMC2101_set_fan_speed (percent : ℚ)
  | EMC2302_set_fan_speed (i : Nat) (percent : ℚ)
  | VCORE_set_voltage (core_voltage : ℚ)
  | gpio_config_input (pin : Nat)
  | gpio_set_direction_output (pin : Nat)
  | gpio_get_level (pin : Nat)
  | gpio_set_level (pin : Nat) (level : Nat)
  | nvs_config_get_u16 (key : NvsKey)
  | nvs_config_set_u16 (key : NvsKey) (value : Nat)
  | ESP_LOGE_OVERHEAT
  | ESP_LOGI
  | vTaskDelay (ms : Nat)
  | exit
  deriving DecidableEq

def GPIO_NUM_10 : Nat := 10

def GPIO_NUM_12 : Nat := 12

def POLL_RATE : Nat := 2000

def MAX_TEMP : ℚ := 90

def THROTTLE_TEMP : ℚ := 75

def TPS546_THROTTLE_TEMP : ℚ := 105

def TPS546_MAX_TEMP : ℚ := 145

/-- Everything the task can observe or change: the shared `GlobalState`, the
configuration store, and the external calls made so far. -/
structure World where
  GLOBAL_STATE : GlobalState
  nvs : NvsStore
  trace : List Action

/-- The `power_management` pointer of the task. -/
def World.pm (w : World) : PowerManagementModule :=
  w.GLOBAL_STATE.POWER_MANAGEMENT_MODULE

/-- Assignment to fields of `*power_management`. -/
def World.setPM (w : World) (f : PowerManagementModule → PowerManagementModule) : World :=
  { w with GLOBAL_STATE :=
      { w.GLOBAL_STATE with POWER_MANAGEMENT_MODULE := f w.GLOBAL_STATE.POWER_MANAGEMENT_MODULE } }

/-- Record one external call. -/
def World.call (w : World) (a : Action) : World :=
  { w with trace := w.trace ++ [a] }

/-- A call of `nvs_config_set_u16`: the store changes and the call is recorded. -/
def World.set_u16 (w : World) (key : NvsKey) (value : Nat) : World :=
  { w with nvs := nvs_config_set_u16 w.nvs key value,
           trace := w.trace ++ [Action.nvs_config_set_u16 key value] }

/-- Result of a pass: the task goes on, or it left through `exit(EXIT_FAILURE)`. -/
inductive Outcome
  | running (w : World)
  | exited (w : World)

/-- World at the end of the pass. -/
def Outcome.world : Outcome → World
  | .running w => w
  | .exited w => w

/-- The pass ended in `exit(EXIT_FAILURE)`: the Overheat verdict. -/
def Outcome.isExited : Outcome → Bool
  | .running _ => false
  | .exited _ => true

/-- Local variables of `POWER_MANAGEMENT_task` that are set before the loop. -/
structure Locals where
  last_frequency_increase : Int
  frequency_target : Nat
  auto_fan_speed : Nat

/-! ## automatic_fan_speed (lines 44-74) -/

/-- The value `result` of `automatic_fan_speed` (lines 46-58). -/
def automatic_fan_speed_result (chip_temp : ℚ) : ℚ :=
  let min_temp : ℚ := 45
  let min_fan_speed : ℚ := 35
  if chip_temp < min_temp then
    min_fan_speed
  else if chip_temp ≥ THROTTLE_TEMP then
    100
  else
    let temp_range := THROTTLE_TEMP - min_temp
    let fan_range := 100 - min_fan_speed
    ((chip_temp - min_temp) / temp_range) * fan_range + min_fan_speed

/-- Function `automatic_fan_speed`: computes `result`, writes `result / 100` to
the fan actuator(s) of the device model, returns `result`. -/
def automatic_fan_speed (chip_temp : ℚ) (w : World) : ℚ × World :=
  let result := automatic_fan_speed_result chip_temp
  let perc := result / 100
  match w.GLOBAL_STATE.device_model with
  | .DEVICE_MAX | .DEVICE_ULTRA | .DEVICE_SUPRA =>
    (result, w.call (.EMC2101_set_fan_speed perc))
  | .DEVICE_HEX =>
    (result, (w.call (.EMC2302_set_fan_speed 0 perc)).call (.EMC2302_set_fan_speed 1 perc))
  | .DEVICE_UNKNOWN => (result, w)

/-! ## POWER_MANAGEMENT_task (lines 76-297) -/

/-- Start-up section of the task (lines 82-121). -/
def POWER_MANAGEMENT_init (c : BuildConfig) (hw : Sensors) (w : World) : Locals × World :=
  let w := w.setPM (fun p => { p with frequency_multiplier := 1 })
  let bv := w.GLOBAL_STATE.board_version
  let w := w.setPM (fun p => { p with HAS_POWER_EN := decide (bv = 202 ∨ bv = 203 ∨ bv = 204) })
  let w := w.setPM (fun p => { p with HAS_PLUG_SENSE := decide (bv = 204) })
  let last_frequency_increase : Int := 0
  let frequency_target := nvs_config_get_u16 w.nvs .NVS_CONFIG_ASIC_FREQ c.CONFIG_ASIC_FREQUENCY
  let w := w.call (.nvs_config_get_u16 .NVS_CONFIG_ASIC_FREQ)
  let auto_fan_speed := nvs_config_get_u16 w.nvs .NVS_CONFIG_AUTO_FAN_SPEED 1
  let w := w.call (.nvs_config_get_u16 .NVS_CONFIG_AUTO_FAN_SPEED)
  let w :=
    match w.GLOBAL_STATE.device_model with
    | .DEVICE_MAX | .DEVICE_ULTRA | .DEVICE_SUPRA =>
      if w.GLOBAL_STATE.board_version ≠ 402 then
        let w := w.call (.gpio_config_input GPIO_NUM_12)
        let barrel_jack_plugged_in := hw.gpio_get_level GPIO_NUM_12
        let w := w.call (.gpio_get_level GPIO_NUM_12)
        let w := w.call (.gpio_set_direction_output GPIO_NUM_10)
        if barrel_jack_plugged_in = 1 ∨ w.pm.HAS_PLUG_SENSE = false then
          w.call (.gpio_set_level GPIO_NUM_10 0)
        else
          w.call (.gpio_set_level GPIO_NUM_10 1)
      else w
    | .DEVICE_HEX => w
    | .DEVICE_UNKNOWN => w
  let w := w.call (.vTaskDelay 3000)
  ({ last_frequency_increase := last_frequency_increase,
     frequency_target := frequency_target,
     auto_fan_speed := auto_fan_speed }, w)

/-- Telemetry section of the loop body: voltage, current, power, fan_rpm
(lines 124-156). -/
def acquire_telemetry (hw : Sensors) (w : World) : World :=
  match w.GLOBAL_STATE.device_model with
  | .DEVICE_MAX | .DEVICE_ULTRA | .DEVICE_SUPRA =>
    let w :=
      if w.GLOBAL_STATE.board_version = 402 then
        let w := (w.call .TPS546_get_vin).setPM
          (fun p => { p with voltage := hw.TPS546_get_vin * 1000 })
        let w := (w.call .TPS546_get_iout).setPM
          (fun p => { p with current := hw.TPS546_get_iout * 1000 })
        (w.call .TPS546_get_vout).setPM
          (fun p => { p with power := (hw.TPS546_get_vout * p.current) / 1000 })
      else
        let w := w.call .INA260_installed
        if hw.INA260_installed = true then
          let w := (w.call .INA260_read_voltage).setPM
            (fun p => { p with voltage := hw.INA260_read_voltage })
          let w := (w.call .INA260_read_current).setPM
            (fun p => { p with current := hw.INA260_read_current })
          (w.call .INA260_read_power).setPM
            (fun p => { p with power := hw.INA260_read_power / 1000 })
        else w
    (w.call .EMC2101_get_fan_speed).setPM (fun p => { p with fan_rpm := hw.EMC2101_get_fan_speed })
  | .DEVICE_HEX =>
    let w := (w.call .TPS546_get_vin).setPM
      (fun p => { p with voltage := hw.TPS546_get_vin * 1000 })
    let w := (w.call .TPS546_get_iout).setPM
      (fun p => { p with current := hw.TPS546_get_iout * 1000 })
    let w := (w.call .TPS546_get_vout).setPM
      (fun p => { p with power := (hw.TPS546_get_vout * p.current) / 1000 })
    let w := (w.call (.EMC2302_get_fan_speed 0)).setPM
      (fun p => { p with fan_rpm := hw.EMC2302_get_fan_speed 0 })
    (w.call (.EMC2302_get_fan_speed 1)).setPM
      (fun p => { p with fan_rpm := hw.EMC2302_get_fan_speed 1 })
  | .DEVICE_UNKNOWN => w

/-- Temperature and overheat section of the loop body (lines 158-261). -/
def overheat_check (c : BuildConfig) (hw : Sensors) (w : World) : Outcome :=
  if w.GLOBAL_STATE.asic_model = .ASIC_BM1397 then
    match w.GLOBAL_STATE.device_model with
    | .DEVICE_MAX | .DEVICE_ULTRA | .DEVICE_SUPRA =>
      let w := (w.call .EMC2101_get_external_temp).setPM
        (fun p => { p with chip_temp_avg := hw.EMC2101_get_external_temp })
      if (w.pm.chip_temp_avg > THROTTLE_TEMP) ∧
          (w.pm.frequency_value > 50 ∨ w.pm.voltage > 1000) then
        let w := w.call .ESP_LOGE_OVERHEAT
        let w := w.call (.EMC2101_set_fan_speed 1)
        let w := if w.pm.HAS_POWER_EN = true then w.call (.gpio_set_level GPIO_NUM_10 1) else w
        let w := w.set_u16 .NVS_CONFIG_ASIC_VOLTAGE 1000
        let w := w.set_u16 .NVS_CONFIG_ASIC_FREQ 50
        let w := w.set_u16 .NVS_CONFIG_FAN_SPEED 100
        let w := w.set_u16 .NVS_CONFIG_AUTO_FAN_SPEED 0
        let w := w.set_u16 .NVS_CONFIG_OVERHEAT_MODE 1
        .exited (w.call .exit)
      else .running w
    | .DEVICE_HEX => .running w
    | .DEVICE_UNKNOWN => .running w
  else if w.GLOBAL_STATE.asic_model = .ASIC_BM1366 ∨ w.GLOBAL_STATE.asic_model = .ASIC_BM1368 then
    match w.GLOBAL_STATE.device_model with
    | .DEVICE_MAX | .DEVICE_ULTRA | .DEVICE_SUPRA =>
      let w :=
        if w.GLOBAL_STATE.board_version = 402 then
          let w := (w.call .EMC2101_get_external_temp).setPM
            (fun p => { p with chip_temp_avg := hw.EMC2101_get_external_temp })
          (w.call .TPS546_get_temperature).setPM
            (fun p => { p with vr_temp := hw.TPS546_get_temperature })
        else
          let w := (w.call .EMC2101_get_internal_temp).setPM
            (fun p => { p with chip_temp_avg := hw.EMC2101_get_internal_temp + 5 })
          w.setPM (fun p => { p with vr_temp := 0 })
      if w.pm.voltage < c.TPS546_INIT_VOUT_MIN then
        .running w
      else if (w.pm.vr_temp > TPS546_THROTTLE_TEMP ∨ w.pm.chip_temp_avg > THROTTLE_TEMP) ∧
          (w.pm.frequency_value > 50 ∨ w.pm.voltage > 1000) then
        let w := w.call .ESP_LOGE_OVERHEAT
        let w := w.call (.EMC2101_set_fan_speed 1)
        let w :=
          if w.GLOBAL_STATE.board_version = 402 then
            w.call (.VCORE_set_voltage 0)
          else if w.pm.HAS_POWER_EN = true then
            w.call (.gpio_set_level GPIO_NUM_10 1)
          else w
        let w := w.set_u16 .NVS_CONFIG_ASIC_VOLTAGE 1000
        let w := w.set_u16 .NVS_CONFIG_ASIC_FREQ 50
        let w := w.set_u16 .NVS_CONFIG_FAN_SPEED 100
        let w := w.set_u16 .NVS_CONFIG_AUTO_FAN_SPEED 0
        let w := w.set_u16 .NVS_CONFIG_OVERHEAT_MODE 1
        .exited (w.call .exit)
      else .running w
    | .DEVICE_HEX =>
      let w := (w.call (.TMP1075_read_temperature 0)).setPM
        (fun p => { p with board_temp_1 := hw.TMP1075_read_temperature 0 })
      let w := (w.call (.TMP1075_read_temperature 1)).setPM
        (fun p => { p with board_temp_2 := hw.TMP1075_read_temperature 1 })
      let w := ((w.call (.TMP1075_read_temperature 0)).call (.TMP1075_read_temperature 1)).setPM
        (fun p => { p with chip_temp_avg :=
          (hw.TMP1075_read_temperature_again 0 + hw.TMP1075_read_temperature_again 1) / 2 + 5 })
      let w := (w.call .TPS546_get_temperature).setPM
        (fun p => { p with vr_temp := hw.TPS546_get_temperature })
      if (w.pm.vr_temp > TPS546_THROTTLE_TEMP ∨ w.pm.chip_temp_avg > THROTTLE_TEMP) ∧
          (w.pm.frequency_value > 50 ∨ w.pm.voltage > 1000) then
        let w := w.call .ESP_LOGE_OVERHEAT
        let w := w.call (.EMC2302_set_fan_speed 0 1)
        let w := w.call (.EMC2302_set_fan_speed 1 1)
        let w := w.call (.VCORE_set_voltage 0)
        let w := w.set_u16 .NVS_CONFIG_ASIC_VOLTAGE 1000
        let w := w.set_u16 .NVS_CONFIG_ASIC_FREQ 50
        let w := w.set_u16 .NVS_CONFIG_FAN_SPEED 100
        let w := w.set_u16 .NVS_CONFIG_AUTO_FAN_SPEED 0
        let w := w.set_u16 .NVS_CONFIG_OVERHEAT_MODE 1
        .exited (w.call .exit)
      else
        .running ((((w.call .TPS546_get_vin).call .TPS546_get_vout).call .TPS546_get_iout).call
          .ESP_LOGI)
    | .DEVICE_UNKNOWN => .running w
  else .running w

/-- Fan section of the loop body (lines 263-284). -/
def fan_control (l : Locals) (w : World) : World :=
  if l.auto_fan_speed = 1 then
    let r := automatic_fan_speed w.pm.chip_temp_avg w
    r.2.setPM (fun p => { p with fan_perc := r.1 })
  else
    let fs : ℚ := (nvs_config_get_u16 w.nvs .NVS_CONFIG_FAN_SPEED 100 : Nat)
    let w := w.call (.nvs_config_get_u16 .NVS_CONFIG_FAN_SPEED)
    let w := w.setPM (fun p => { p with fan_perc := fs })
    match w.GLOBAL_STATE.device_model with
    | .DEVICE_MAX | .DEVICE_ULTRA | .DEVICE_SUPRA =>
      w.call (.EMC2101_set_fan_speed (fs / 100))
    | .DEVICE_HEX =>
      (w.call (.EMC2302_set_fan_speed 0 (fs / 100))).call (.EMC2302_set_fan_speed 1 (fs / 100))
    | .DEVICE_UNKNOWN => w

/-- Plug-sense section of the loop body (lines 286-293). -/
def plug_sense (hw : Sensors) (w : World) : World :=
  if w.pm.HAS_PLUG_SENSE = true then
    let gpio12_state := hw.gpio_get_level GPIO_NUM_12
    let w := w.call (.gpio_get_level GPIO_NUM_12)
    if gpio12_state = 0 then
      w.call (.gpio_set_level GPIO_NUM_10 1)
    else w
  else w

/-- One iteration of the `while (1)` loop (lines 124-295). -/
def POWER_MANAGEMENT_cycle (c : BuildConfig) (l : Locals) (hw : Sensors) (w : World) : Outcome :=
  match overheat_check c hw (acquire_telemetry hw w) with
  | .exited w => .exited w
  | .running w => .running ((plug_sense hw (fan_control l w)).call (.vTaskDelay POLL_RATE))

/-- The `while (1)` loop over a finite run: one entry of `cycles` per iteration,
holding the driver values of that iteration. The loop stops early at `exit`. -/
def POWER_MANAGEMENT_loop (c : BuildConfig) (l : Locals) : List Sensors → World → Outcome
  | [], w => .running w
  | hw :: rest, w =>
    match POWER_MANAGEMENT_cycle c l hw w with
    | .exited w1 => .exited w1
    | .running w1 => POWER_MANAGEMENT_loop c l rest w1

/-- Function `POWER_MANAGEMENT_task` over a finite run: the start-up section with
driver values `boot`, then the loop over `cycles`. -/
def POWER_MANAGEMENT_task (c : BuildConfig) (boot : Sensors) (cycles : List Sensors)
    (w : World) : Outcome :=
  let r := POWER_MANAGEMENT_init c boot w
  POWER_MANAGEMENT_loop c r.1 cycles r.2

/-! ## Vocabulary for statements about traces -/

/-- The writes that hand the duty `perc` to every fan actuator of a device model:
the EMC2101 on MAX, ULTRA and SUPRA, both EMC2302 channels on HEX. -/
def fan_writes (dm : DeviceModel) (perc : ℚ) : List Action :=
  match dm with
  | .DEVICE_MAX | .DEVICE_ULTRA | .DEVICE_SUPRA => [.EMC2101_set_fan_speed perc]
  | .DEVICE_HEX => [.EMC2302_set_fan_speed 0 perc, .EMC2302_set_fan_speed 1 perc]
  | .DEVICE_UNKNOWN => []

/-- The calls of the plug-sense section for a capability flag and a level of GPIO 12. -/
def plug_sense_calls (has_plug_sense : Bool) (level : Int) : List Action :=
  if has_plug_sense = true then
    Action.gpio_get_level GPIO_NUM_12 ::
      (if level = 0 then [Action.gpio_set_level GPIO_NUM_10 1] else [])
  else []

/-- The five configuration writes of an overheat trip, in program order. -/
def safe_default_writes : List Action :=
  [.nvs_config_set_u16 .NVS_CONFIG_ASIC_VOLTAGE 1000,
   .nvs_config_set_u16 .NVS_CONFIG_ASIC_FREQ 50,
   .nvs_config_set_u16 .NVS_CONFIG_FAN_SPEED 100,
   .nvs_config_set_u16 .NVS_CONFIG_AUTO_FAN_SPEED 0,
   .nvs_config_set_u16 .NVS_CONFIG_OVERHEAT_MODE 1]

/-- Reads of a sensor or of a driver status. -/
def Action.isSensorRead : Action → Bool
  | .TPS546_get_vin | .TPS546_get_iout | .TPS546_get_vout | .TPS546_get_temperature
  | .INA260_installed | .INA260_read_voltage | .INA260_read_current | .INA260_read_power
  | .EMC2101_get_fan_speed | .EMC2101_get_external_temp | .EMC2101_get_internal_temp
  | .EMC2302_get_fan_speed _ | .TMP1075_read_temperature _ => true
  | _ => false

/-- Writes to a fan actuator. -/
def Action.isFanWrite : Action → Bool
  | .EMC2101_set_fan_speed _ | .EMC2302_set_fan_speed _ _ => true
  | _ => false

/-- Writes of the core voltage. -/
def Action.isCoreVoltageWrite : Action → Bool
  | .VCORE_set_voltage _ => true
  | _ => false

/-- Configuration, reads and writes of GPIO lines. -/
def Action.isGpioAccess : Action → Bool
  | .gpio_config_input _ | .gpio_set_direction_output _ | .gpio_get_level _
  | .gpio_set_level _ _ => true
  | _ => false

/-- Calls that change something outside the task: actuator writes, GPIO writes,
configuration writes and `exit`. Reads, log lines and delays are not. -/
def Action.isEffect : Action → Bool
  | .EMC2101_set_fan_speed _ | .EMC2302_set_fan_speed _ _ | .VCORE_set_voltage _
  | .gpio_set_level _ _ | .nvs_config_set_u16 _ _ | .exit => true
  | _ => false

/-- The store after the five configuration writes of a trip. -/
def safe_defaults_store (s : NvsStore) : NvsStore :=
  nvs_config_set_u16 (nvs_config_set_u16 (nvs_config_set_u16 (nvs_config_set_u16
    (nvs_config_set_u16 s .NVS_CONFIG_ASIC_VOLTAGE 1000) .NVS_CONFIG_ASIC_FREQ 50)
      .NVS_CONFIG_FAN_SPEED 100) .NVS_CONFIG_AUTO_FAN_SPEED 0) .NVS_CONFIG_OVERHEAT_MODE 1

/-- The store at the end of a pass that started with store `s`: the safe
defaults written over `s` after an exit, `s` itself otherwise. -/
def Outcome.storeOk (s : NvsStore) (o : Outcome) : Prop :=
  o.world.nvs = if o.isExited = true then safe_defaults_store s else s

/-- The power-removal call of a trip, as the three trip branches make it: the
BM1397 branch drives GPIO 10 when `HAS_POWER_EN`; the BM1366/BM1368 branch for
MAX, ULTRA and SUPRA commands core voltage 0 on revision 402 and otherwise
drives GPIO 10 when `HAS_POWER_EN`; the HEX branch commands core voltage 0. -/
def power_removal_calls (am : AsicModel) (dm : DeviceModel) (bv : Int) (has_power_en : Bool) :
    List Action :=
  if am = .ASIC_BM1397 then
    (if has_power_en = true then [Action.gpio_set_level GPIO_NUM_10 1] else [])
  else if dm = .DEVICE_HEX then [Action.VCORE_set_voltage 0]
  else if bv = 402 then [Action.VCORE_set_voltage 0]
  else if has_power_en = true then [Action.gpio_set_level GPIO_NUM_10 1]
  else []

/-- The effects of a trip in program order: fans to duty 1, power removal, the
five configuration writes, `exit`. -/
def trip_effects (w : World) : List Action :=
  fan_writes w.GLOBAL_STATE.device_model 1 ++
    power_removal_calls w.GLOBAL_STATE.asic_model w.GLOBAL_STATE.device_model
      w.GLOBAL_STATE.board_version w.pm.HAS_POWER_EN ++
    safe_default_writes ++ [Action.exit]

/-- Effects of an overheat section started in `w`: none when it does not exit,
the effects of a trip when it does. -/
def Outcome.effectsOk (w : World) (o : Outcome) : Prop :=
  o.world.trace.filter Action.isEffect =
    w.trace.filter Action.isEffect ++ (if o.isExited = true then trip_effects w else [])

/-! ## Concrete data for evaluating the model -/

/-- A module record with frequency 800 and all measurements zero. -/
def sampleModule : PowerManagementModule :=
  { fan_perc := 0, fan_rpm := 0, chip_temp_avg := 0, vr_temp := 0, board_temp_1 := 0,
    board_temp_2 := 0, voltage := 0, frequency_multiplier := 0, frequency_value := 800,
    power := 0, current := 0, HAS_POWER_EN := false, HAS_PLUG_SENSE := false }

/-- A world with an empty store and an empty trace for the given variant. -/
def sampleWorld (dm : DeviceModel) (am : AsicModel) (bv : Int) : World :=
  { GLOBAL_STATE :=
      { device_model := dm, asic_model := am, board_version := bv,
        POWER_MANAGEMENT_MODULE := sampleModule },
    nvs := fun _ => none,
    trace := [] }

/-- Driver values of one cycle: every temperature source reports `temp`, every
voltage source reports `volts` volt (the INA260 the same in millivolt), the plug
is in. -/
def sampleSensors (temp volts : ℚ) : Sensors :=
  { TPS546_get_vin := volts, TPS546_get_iout := 1, TPS546_get_vout := 1,
    TPS546_get_temperature := temp, INA260_installed := true,
    INA260_read_voltage := volts * 1000, INA260_read_current := 1000,
    INA260_read_power := 1000000, EMC2101_get_fan_speed := 3000,
    EMC2101_get_external_temp := temp, EMC2101_get_internal_temp := temp,
    EMC2302_get_fan_speed := fun _ => 3000,
    TMP1075_read_temperature := fun _ => temp,
    TMP1075_read_temperature_again := fun _ => temp,
    gpio_get_level := fun _ => 1 }

/-- Build constants used for evaluation: minimum output voltage 1. -/
def sampleConfig : BuildConfig :=
  { CONFIG_ASIC_FREQUENCY := 485, TPS546_INIT_VOUT_MIN := 1 }

/-- Locals as the start-up section leaves them for an empty store, automatic fan. -/
def sampleLocals : Locals :=
  { last_frequency_increase := 0, frequency_target := 485, auto_fan_speed := 1 }


/-- A world in fixed fan mode whose store holds fan-speed 200. -/
def fixedFanWorld : World :=
  { sampleWorld .DEVICE_MAX .ASIC_BM1397 204 with
    nvs := nvs_config_set_u16 (fun _ => none) .NVS_CONFIG_FAN_SPEED 200 }

/-- Locals of fixed fan mode: `auto_fan_speed` is 0. -/
def fixedFanLocals : Locals :=
  { last_frequency_increase := 0, frequency_target := 485, auto_fan_speed := 0 }

/-- Calls that touch no sensor, fan actuator or core-voltage regulator, and no
GPIO line unless the plug-sense capability is set. -/
def Action.isPassive (has_plug_sense : Bool) (a : Action) : Prop :=
  a.isSensorRead = false ∧ a.isFanWrite = false ∧ a.isCoreVoltageWrite = false ∧
    (has_plug_sense = false → a.isGpioAccess = false)

/-! ## Lemmas on the fan curve -/

theorem automatic_fan_speed_fst (t : ℚ) (w : World) :
    (automatic_fan_speed t w).1 = automatic_fan_speed_result t := by
  unfold automatic_fan_speed
  cases w.GLOBAL_STATE.device_model <;> rfl

theorem automatic_fan_speed_result_ge (t : ℚ) : 35 ≤ automatic_fan_speed_result t := by
  unfold automatic_fan_speed_result THROTTLE_TEMP
  simp only
  split_ifs with h1 h2
  · exact le_refl _
  · norm_num
  · have h3 : 0 ≤ (t - 45) / (75 - 45) := by
      apply div_nonneg <;> linarith
    nlinarith

theorem automatic_fan_speed_result_le (t : ℚ) : automatic_fan_speed_result t ≤ 100 := by
  unfold automatic_fan_speed_result THROTTLE_TEMP
  simp only
  split_ifs with h1 h2
  · norm_num
  · exact le_refl _
  · have h3 : (t - 45) / (75 - 45) ≤ 1 := by
      rw [div_le_one (by norm_num)]
      linarith
    nlinarith

theorem automatic_fan_speed_result_mono (a b : ℚ) (h : a ≤ b) :
    automatic_fan_speed_result a ≤ automatic_fan_speed_result b := by
  by_cases hb1 : b < 45
  · have ha1 : a < 45 := lt_of_le_of_lt h hb1
    simp [automatic_fan_speed_result, ha1, hb1]
  · by_cases hb2 : b ≥ 75
    · calc automatic_fan_speed_result a ≤ 100 := automatic_fan_speed_result_le a
        _ = automatic_fan_speed_result b := by
          simp only [automatic_fan_speed_result, THROTTLE_TEMP, if_neg hb1, if_pos hb2]
    · by_cases ha1 : a < 45
      · calc automatic_fan_speed_result a = 35 := by
              simp only [automatic_fan_speed_result, if_pos ha1]
          _ ≤ automatic_fan_speed_result b := automatic_fan_speed_result_ge b
      · have ha2 : ¬ a ≥ 75 := fun h2 => hb2 (le_trans h2 h)
        simp only [automatic_fan_speed_result, THROTTLE_TEMP, if_neg ha1, if_neg ha2,
          if_neg hb1, if_neg hb2]
        have h3 : (a - 45) / (75 - 45) ≤ (b - 45) / (75 - 45) := by
          apply div_le_div_of_nonneg_right (by linarith) (by norm_num)
        nlinarith

/-! ## Projections of the world updates -/

@[simp] theorem call_GLOBAL_STATE (w : World) (a : Action) :
    (w.call a).GLOBAL_STATE = w.GLOBAL_STATE := rfl

@[simp] theorem call_nvs (w : World) (a : Action) : (w.call a).nvs = w.nvs := rfl

@[simp] theorem call_trace (w : World) (a : Action) : (w.call a).trace = w.trace ++ [a] := rfl

@[simp] theorem call_pm (w : World) (a : Action) : (w.call a).pm = w.pm := rfl

@[simp] theorem setPM_device_model (w : World) (f : PowerManagementModule → PowerManagementModule) :
    (w.setPM f).GLOBAL_STATE.device_model = w.GLOBAL_STATE.device_model := rfl

@[simp] theorem setPM_asic_model (w : World) (f : PowerManagementModule → PowerManagementModule) :
    (w.setPM f).GLOBAL_STATE.asic_model = w.GLOBAL_STATE.asic_model := rfl

@[simp] theorem setPM_board_version (w : World) (f : PowerManagementModule → PowerManagementModule) :
    (w.setPM f).GLOBAL_STATE.board_version = w.GLOBAL_STATE.board_version := rfl

@[simp] theorem setPM_nvs (w : World) (f : PowerManagementModule → PowerManagementModule) :
    (w.setPM f).nvs = w.nvs := rfl

@[simp] theorem setPM_trace (w : World) (f : PowerManagementModule → PowerManagementModule) :
    (w.setPM f).trace = w.trace := rfl

@[simp] theorem setPM_pm (w : World) (f : PowerManagementModule → PowerManagementModule) :
    (w.setPM f).pm = f w.pm := rfl

@[simp] theorem set_u16_GLOBAL_STATE (w : World) (k : NvsKey) (v : Nat) :
    (w.set_u16 k v).GLOBAL_STATE = w.GLOBAL_STATE := rfl

@[simp] theorem set_u16_nvs (w : World) (k : NvsKey) (v : Nat) :
    (w.set_u16 k v).nvs = nvs_config_set_u16 w.nvs k v := rfl

@[simp] theorem set_u16_trace (w : World) (k : NvsKey) (v : Nat) :
    (w.set_u16 k v).trace = w.trace ++ [Action.nvs_config_set_u16 k v] := rfl

@[simp] theorem set_u16_pm (w : World) (k : NvsKey) (v : Nat) : (w.set_u16 k v).pm = w.pm := rfl

/-! ## Frame lemmas for the sections of the loop body -/

theorem acquire_device_model (hw : Sensors) (w : World) :
    (acquire_telemetry hw w).GLOBAL_STATE.device_model = w.GLOBAL_STATE.device_model := by
  unfold acquire_telemetry
  cases h : w.GLOBAL_STATE.device_model <;> simp [h] <;> split_ifs <;> simp [h]

theorem acquire_asic_model (hw : Sensors) (w : World) :
    (acquire_telemetry hw w).GLOBAL_STATE.asic_model = w.GLOBAL_STATE.asic_model := by
  unfold acquire_telemetry
  cases h : w.GLOBAL_STATE.device_model <;> simp <;> split_ifs <;> simp

theorem acquire_board_version (hw : Sensors) (w : World) :
    (acquire_telemetry hw w).GLOBAL_STATE.board_version = w.GLOBAL_STATE.board_version := by
  unfold acquire_telemetry
  cases h : w.GLOBAL_STATE.device_model <;> simp <;> split_ifs <;> simp

theorem acquire_nvs (hw : Sensors) (w : World) : (acquire_telemetry hw w).nvs = w.nvs := by
  unfold acquire_telemetry
  cases h : w.GLOBAL_STATE.device_model <;> simp <;> split_ifs <;> simp

theorem acquire_frequency_value (hw : Sensors) (w : World) :
    (acquire_telemetry hw w).pm.frequency_value = w.pm.frequency_value := by
  unfold acquire_telemetry
  cases h : w.GLOBAL_STATE.device_model <;> simp <;> split_ifs <;> simp

theorem acquire_HAS_POWER_EN (hw : Sensors) (w : World) :
    (acquire_telemetry hw w).pm.HAS_POWER_EN = w.pm.HAS_POWER_EN := by
  unfold acquire_telemetry
  cases h : w.GLOBAL_STATE.device_model <;> simp <;> split_ifs <;> simp

theorem acquire_HAS_PLUG_SENSE (hw : Sensors) (w : World) :
    (acquire_telemetry hw w).pm.HAS_PLUG_SENSE = w.pm.HAS_PLUG_SENSE := by
  unfold acquire_telemetry
  cases h : w.GLOBAL_STATE.device_model <;> simp <;> split_ifs <;> simp

theorem fan_control_GLOBAL_STATE_ids (l : Locals) (w : World) :
    (fan_control l w).GLOBAL_STATE.device_model = w.GLOBAL_STATE.device_model ∧
      (fan_control l w).GLOBAL_STATE.asic_model = w.GLOBAL_STATE.asic_model ∧
      (fan_control l w).GLOBAL_STATE.board_version = w.GLOBAL_STATE.board_version ∧
      (fan_control l w).nvs = w.nvs := by
  unfold fan_control automatic_fan_speed
  cases h : w.GLOBAL_STATE.device_model <;> simp [h] <;> split_ifs <;> simp [h]

theorem fan_control_pm (l : Locals) (w : World) :
    (fan_control l w).pm = { w.pm with fan_perc := (fan_control l w).pm.fan_perc } := by
  unfold fan_control automatic_fan_speed
  cases h : w.GLOBAL_STATE.device_model <;> simp [h] <;> split_ifs <;> simp [h]

theorem plug_sense_GLOBAL_STATE (hw : Sensors) (w : World) :
    (plug_sense hw w).GLOBAL_STATE = w.GLOBAL_STATE ∧ (plug_sense hw w).nvs = w.nvs := by
  unfold plug_sense
  by_cases h1 : w.pm.HAS_PLUG_SENSE = true <;>
    by_cases h2 : hw.gpio_get_level GPIO_NUM_12 = 0 <;> simp [h1, h2]

theorem plug_sense_pm (hw : Sensors) (w : World) : (plug_sense hw w).pm = w.pm := by
  unfold World.pm
  rw [(plug_sense_GLOBAL_STATE hw w).1]

theorem fan_control_fan_perc (l : Locals) (w : World) :
    (fan_control l w).pm.fan_perc =
      (if l.auto_fan_speed = 1 then automatic_fan_speed_result w.pm.chip_temp_avg
       else ((nvs_config_get_u16 w.nvs .NVS_CONFIG_FAN_SPEED 100 : Nat) : ℚ)) := by
  unfold fan_control automatic_fan_speed
  cases h : w.GLOBAL_STATE.device_model <;> simp [h] <;> split_ifs <;> simp [h]

theorem fan_control_trace (l : Locals) (w : World) :
    (fan_control l w).trace = w.trace ++
      ((if l.auto_fan_speed = 1 then [] else [Action.nvs_config_get_u16 .NVS_CONFIG_FAN_SPEED]) ++
        fan_writes w.GLOBAL_STATE.device_model ((fan_control l w).pm.fan_perc / 100)) := by
  rw [fan_control_fan_perc]
  unfold fan_control automatic_fan_speed fan_writes
  cases h : w.GLOBAL_STATE.device_model <;> simp [h] <;> split_ifs <;> simp [h]

theorem plug_sense_trace (hw : Sensors) (w : World) :
    (plug_sense hw w).trace = w.trace ++
      plug_sense_calls w.pm.HAS_PLUG_SENSE (hw.gpio_get_level GPIO_NUM_12) := by
  unfold plug_sense plug_sense_calls
  by_cases h1 : w.pm.HAS_PLUG_SENSE = true <;>
    by_cases h2 : hw.gpio_get_level GPIO_NUM_12 = 0 <;> simp [h1, h2]

theorem acquire_trace_max (hw : Sensors) (w : World)
    (hdev : w.GLOBAL_STATE.device_model = .DEVICE_MAX ∨
      w.GLOBAL_STATE.device_model = .DEVICE_ULTRA ∨
      w.GLOBAL_STATE.device_model = .DEVICE_SUPRA) :
    (acquire_telemetry hw w).trace = w.trace ++
      ((if w.GLOBAL_STATE.board_version = 402 then
          [Action.TPS546_get_vin, Action.TPS546_get_iout, Action.TPS546_get_vout]
        else if hw.INA260_installed = true then
          [Action.INA260_installed, Action.INA260_read_voltage, Action.INA260_read_current,
            Action.INA260_read_power]
        else [Action.INA260_installed]) ++ [Action.EMC2101_get_fan_speed]) := by
  unfold acquire_telemetry
  rcases hdev with h | h | h <;> simp only [h] <;> split_ifs <;> simp

/-- A cycle whose overheat section does not exit runs the fan section, the
plug-sense section and the delay on the world the overheat section left. -/
theorem cycle_running (c : BuildConfig) (l : Locals) (hw : Sensors) (w : World)
    (h : (overheat_check c hw (acquire_telemetry hw w)).isExited = false) :
    POWER_MANAGEMENT_cycle c l hw w =
      .running ((plug_sense hw (fan_control l
        (overheat_check c hw (acquire_telemetry hw w)).world)).call (.vTaskDelay POLL_RATE)) := by
  unfold POWER_MANAGEMENT_cycle
  cases h1 : overheat_check c hw (acquire_telemetry hw w) with
  | exited w1 => rw [h1] at h; simp [Outcome.isExited] at h
  | running w1 => simp [Outcome.world]

/-- A cycle whose overheat section exits ends on the world that section left. -/
theorem cycle_exited (c : BuildConfig) (l : Locals) (hw : Sensors) (w : World)
    (h : (overheat_check c hw (acquire_telemetry hw w)).isExited = true) :
    POWER_MANAGEMENT_cycle c l hw w =
      .exited (overheat_check c hw (acquire_telemetry hw w)).world := by
  unfold POWER_MANAGEMENT_cycle
  cases h1 : overheat_check c hw (acquire_telemetry hw w) with
  | exited w1 => simp [Outcome.world]
  | running w1 => rw [h1] at h; simp [Outcome.isExited] at h

/-- The verdict of a cycle is the verdict of its overheat section. -/
theorem cycle_isExited (c : BuildConfig) (l : Locals) (hw : Sensors) (w : World) :
    (POWER_MANAGEMENT_cycle c l hw w).isExited =
      (overheat_check c hw (acquire_telemetry hw w)).isExited := by
  unfold POWER_MANAGEMENT_cycle
  cases overheat_check c hw (acquire_telemetry hw w) <;> rfl

/-- Apart from `fan_perc`, the module at the end of a cycle is the module at the
end of the overheat section. -/
theorem cycle_pm (c : BuildConfig) (l : Locals) (hw : Sensors) (w : World) :
    (POWER_MANAGEMENT_cycle c l hw w).world.pm =
      { (overheat_check c hw (acquire_telemetry hw w)).world.pm with
        fan_perc := (POWER_MANAGEMENT_cycle c l hw w).world.pm.fan_perc } := by
  unfold POWER_MANAGEMENT_cycle
  cases overheat_check c hw (acquire_telemetry hw w) with
  | exited w1 => simp [Outcome.world]
  | running w1 =>
    simp only [Outcome.world, call_pm, plug_sense_pm]
    rw [fan_control_pm]

/-! ## The overheat section, by variant -/

theorem overheat_check_bm1397 (c : BuildConfig) (hw : Sensors) (w : World)
    (hasic : w.GLOBAL_STATE.asic_model = .ASIC_BM1397)
    (hdev : w.GLOBAL_STATE.device_model = .DEVICE_MAX ∨
      w.GLOBAL_STATE.device_model = .DEVICE_ULTRA ∨
      w.GLOBAL_STATE.device_model = .DEVICE_SUPRA) :
    ((overheat_check c hw w).isExited = true ↔
        hw.EMC2101_get_external_temp > 75 ∧
          (w.pm.frequency_value > 50 ∨ w.pm.voltage > 1000)) ∧
      (overheat_check c hw w).world.pm.chip_temp_avg = hw.EMC2101_get_external_temp ∧
      (overheat_check c hw w).world.pm.frequency_value = w.pm.frequency_value ∧
      (overheat_check c hw w).world.pm.voltage = w.pm.voltage := by
  unfold overheat_check
  rcases hdev with h | h | h <;>
    simp only [hasic, h, if_true, setPM_pm, call_pm, THROTTLE_TEMP] <;>
    split_ifs with h1 <;>
    simp [Outcome.isExited, Outcome.world, h1]

theorem overheat_check_dual_max (c : BuildConfig) (hw : Sensors) (w : World)
    (hasic : w.GLOBAL_STATE.asic_model = .ASIC_BM1366 ∨ w.GLOBAL_STATE.asic_model = .ASIC_BM1368)
    (hdev : w.GLOBAL_STATE.device_model = .DEVICE_MAX ∨
      w.GLOBAL_STATE.device_model = .DEVICE_ULTRA ∨
      w.GLOBAL_STATE.device_model = .DEVICE_SUPRA) :
    ((overheat_check c hw w).isExited = true ↔
        ¬ (w.pm.voltage < c.TPS546_INIT_VOUT_MIN) ∧
          ((overheat_check c hw w).world.pm.vr_temp > 105 ∨
            (overheat_check c hw w).world.pm.chip_temp_avg > 75) ∧
          (w.pm.frequency_value > 50 ∨ w.pm.voltage > 1000)) ∧
      (overheat_check c hw w).world.pm.chip_temp_avg =
        (if w.GLOBAL_STATE.board_version = 402 then hw.EMC2101_get_external_temp
         else hw.EMC2101_get_internal_temp + 5) ∧
      (overheat_check c hw w).world.pm.vr_temp =
        (if w.GLOBAL_STATE.board_version = 402 then hw.TPS546_get_temperature else 0) ∧
      (overheat_check c hw w).world.pm.frequency_value = w.pm.frequency_value ∧
      (overheat_check c hw w).world.pm.voltage = w.pm.voltage := by
  have hne : w.GLOBAL_STATE.asic_model ≠ .ASIC_BM1397 := by
    rcases hasic with h | h <;> rw [h] <;> decide
  unfold overheat_check
  rcases hdev with h | h | h <;>
    simp only [hne, hasic, h, if_true, if_false, setPM_pm, call_pm, THROTTLE_TEMP,
      TPS546_THROTTLE_TEMP] <;>
    by_cases hb : w.GLOBAL_STATE.board_version = 402 <;>
    simp only [hb, if_true, if_false, setPM_pm, call_pm] <;>
    split_ifs <;>
    simp [Outcome.isExited, Outcome.world, *]

theorem overheat_check_dual_hex (c : BuildConfig) (hw : Sensors) (w : World)
    (hasic : w.GLOBAL_STATE.asic_model = .ASIC_BM1366 ∨ w.GLOBAL_STATE.asic_model = .ASIC_BM1368)
    (hdev : w.GLOBAL_STATE.device_model = .DEVICE_HEX) :
    ((overheat_check c hw w).isExited = true ↔
        ((overheat_check c hw w).world.pm.vr_temp > 105 ∨
            (overheat_check c hw w).world.pm.chip_temp_avg > 75) ∧
          (w.pm.frequency_value > 50 ∨ w.pm.voltage > 1000)) ∧
      (overheat_check c hw w).world.pm.chip_temp_avg =
        (hw.TMP1075_read_temperature_again 0 + hw.TMP1075_read_temperature_again 1) / 2 + 5 ∧
      (overheat_check c hw w).world.pm.vr_temp = hw.TPS546_get_temperature ∧
      (overheat_check c hw w).world.pm.frequency_value = w.pm.frequency_value ∧
      (overheat_check c hw w).world.pm.voltage = w.pm.voltage := by
  have hne : w.GLOBAL_STATE.asic_model ≠ .ASIC_BM1397 := by
    rcases hasic with h | h <;> rw [h] <;> decide
  unfold overheat_check
  simp only [hne, hasic, hdev, if_true, if_false, setPM_pm, call_pm, THROTTLE_TEMP,
      TPS546_THROTTLE_TEMP]
  split_ifs with h1 <;>
    simp [Outcome.isExited, Outcome.world, h1]

/-- The overheat section leaves the identity of the board, the capability
flags, the frequency value and the measured voltage alone. -/
theorem overheat_check_frame (c : BuildConfig) (hw : Sensors) (w : World) :
    (overheat_check c hw w).world.GLOBAL_STATE.device_model = w.GLOBAL_STATE.device_model ∧
      (overheat_check c hw w).world.GLOBAL_STATE.asic_model = w.GLOBAL_STATE.asic_model ∧
      (overheat_check c hw w).world.GLOBAL_STATE.board_version = w.GLOBAL_STATE.board_version ∧
      (overheat_check c hw w).world.pm.HAS_PLUG_SENSE = w.pm.HAS_PLUG_SENSE ∧
      (overheat_check c hw w).world.pm.HAS_POWER_EN = w.pm.HAS_POWER_EN ∧
      (overheat_check c hw w).world.pm.frequency_value = w.pm.frequency_value ∧
      (overheat_check c hw w).world.pm.voltage = w.pm.voltage := by
  unfold overheat_check
  cases ha : w.GLOBAL_STATE.asic_model <;> cases hd : w.GLOBAL_STATE.device_model <;>
    simp [Outcome.world, ha, hd] <;>
    split_ifs <;> simp [Outcome.world, ha, hd]

theorem overheat_check_storeOk (c : BuildConfig) (hw : Sensors) (w : World) :
    (overheat_check c hw w).storeOk w.nvs := by
  unfold overheat_check
  cases ha : w.GLOBAL_STATE.asic_model <;> cases hd : w.GLOBAL_STATE.device_model <;>
    simp only [ha, hd, reduceCtorEq, if_true, if_false, or_true, true_or, or_false, or_self] <;>
    (try split_ifs) <;>
    simp [Outcome.storeOk, Outcome.world, Outcome.isExited, safe_defaults_store]

theorem overheat_check_nvs (c : BuildConfig) (hw : Sensors) (w : World) :
    (overheat_check c hw w).world.nvs =
      (if (overheat_check c hw w).isExited = true then safe_defaults_store w.nvs else w.nvs) :=
  overheat_check_storeOk c hw w

set_option maxHeartbeats 2000000 in
theorem overheat_check_effectsOk (c : BuildConfig) (hw : Sensors) (w : World) :
    (overheat_check c hw w).effectsOk w := by
  unfold overheat_check
  cases ha : w.GLOBAL_STATE.asic_model <;> cases hd : w.GLOBAL_STATE.device_model <;>
    by_cases hb : w.GLOBAL_STATE.board_version = 402 <;>
    simp only [ha, hd, hb, reduceCtorEq, if_true, if_false, or_true, true_or, or_false, or_self,
      setPM_pm, call_pm, set_u16_pm, call_GLOBAL_STATE, setPM_board_version] <;>
    (try split_ifs) <;>
    simp [Outcome.effectsOk, Outcome.world, Outcome.isExited, trip_effects, fan_writes,
      power_removal_calls, safe_default_writes, Action.isEffect, List.filter_append, *]

theorem overheat_check_effects (c : BuildConfig) (hw : Sensors) (w : World) :
    (overheat_check c hw w).world.trace.filter Action.isEffect =
      w.trace.filter Action.isEffect ++
        (if (overheat_check c hw w).isExited = true then trip_effects w else []) :=
  overheat_check_effectsOk c hw w

theorem acquire_effects (hw : Sensors) (w : World) :
    (acquire_telemetry hw w).trace.filter Action.isEffect = w.trace.filter Action.isEffect := by
  unfold acquire_telemetry
  cases h : w.GLOBAL_STATE.device_model <;> simp only [h] <;> (try split_ifs) <;>
    simp [List.filter_append, Action.isEffect]

theorem acquire_unknown (hw : Sensors) (w : World)
    (h : w.GLOBAL_STATE.device_model = .DEVICE_UNKNOWN) : acquire_telemetry hw w = w := by
  unfold acquire_telemetry
  simp [h]

theorem overheat_check_unknown (c : BuildConfig) (hw : Sensors) (w : World)
    (h : w.GLOBAL_STATE.device_model = .DEVICE_UNKNOWN) : overheat_check c hw w = .running w := by
  unfold overheat_check
  cases ha : w.GLOBAL_STATE.asic_model <;> simp [h]

theorem trip_effects_acquire (hw : Sensors) (w : World) :
    trip_effects (acquire_telemetry hw w) = trip_effects w := by
  unfold trip_effects
  rw [acquire_device_model, acquire_asic_model, acquire_board_version, acquire_HAS_POWER_EN]

/-! ## The whole cycle -/

@[simp] theorem world_running (w : World) : (Outcome.running w).world = w := rfl

@[simp] theorem world_exited (w : World) : (Outcome.exited w).world = w := rfl

@[simp] theorem isExited_running (w : World) : (Outcome.running w).isExited = false := rfl

@[simp] theorem isExited_exited (w : World) : (Outcome.exited w).isExited = true := rfl

theorem fan_writes_filter (dm : DeviceModel) (x : ℚ) :
    (fan_writes dm x).filter Action.isEffect = fan_writes dm x := by
  cases dm <;> simp [fan_writes, Action.isEffect]

theorem plug_sense_calls_filter (b : Bool) (level : Int) :
    (plug_sense_calls b level).filter Action.isEffect =
      (if b = true ∧ level = 0 then [Action.gpio_set_level GPIO_NUM_10 1] else []) := by
  unfold plug_sense_calls
  by_cases h1 : b = true <;> by_cases h2 : level = 0 <;> simp [h1, h2, Action.isEffect]

theorem cycle_nvs (c : BuildConfig) (l : Locals) (hw : Sensors) (w : World) :
    (POWER_MANAGEMENT_cycle c l hw w).world.nvs =
      (if (POWER_MANAGEMENT_cycle c l hw w).isExited = true then safe_defaults_store w.nvs
       else w.nvs) := by
  rw [cycle_isExited]
  cases h : (overheat_check c hw (acquire_telemetry hw w)).isExited
  · rw [cycle_running c l hw w h]
    have h2 := overheat_check_nvs c hw (acquire_telemetry hw w)
    rw [h, acquire_nvs] at h2
    simp [(plug_sense_GLOBAL_STATE _ _).2, (fan_control_GLOBAL_STATE_ids _ _).2.2.2, h2]
  · rw [cycle_exited c l hw w h]
    have h2 := overheat_check_nvs c hw (acquire_telemetry hw w)
    rw [h, acquire_nvs] at h2
    simp [h2]

theorem cycle_fan_perc (c : BuildConfig) (l : Locals) (hw : Sensors) (w : World)
    (h : (POWER_MANAGEMENT_cycle c l hw w).isExited = false) :
    (POWER_MANAGEMENT_cycle c l hw w).world.pm.fan_perc =
      (if l.auto_fan_speed = 1 then
        automatic_fan_speed_result (POWER_MANAGEMENT_cycle c l hw w).world.pm.chip_temp_avg
       else ((nvs_config_get_u16 w.nvs .NVS_CONFIG_FAN_SPEED 100 : Nat) : ℚ)) := by
  rw [cycle_isExited] at h
  have hn := overheat_check_nvs c hw (acquire_telemetry hw w)
  rw [h, acquire_nvs] at hn
  have hc : (POWER_MANAGEMENT_cycle c l hw w).world.pm.chip_temp_avg =
      (overheat_check c hw (acquire_telemetry hw w)).world.pm.chip_temp_avg := by
    rw [cycle_pm]
  rw [hc, cycle_running c l hw w h]
  simp only [world_running, world_exited, call_pm, plug_sense_pm]
  rw [fan_control_fan_perc]
  simp at hn
  rw [hn]

theorem cycle_frame (c : BuildConfig) (l : Locals) (hw : Sensors) (w : World) :
    (POWER_MANAGEMENT_cycle c l hw w).world.GLOBAL_STATE.device_model = w.GLOBAL_STATE.device_model ∧
      (POWER_MANAGEMENT_cycle c l hw w).world.GLOBAL_STATE.asic_model = w.GLOBAL_STATE.asic_model ∧
      (POWER_MANAGEMENT_cycle c l hw w).world.GLOBAL_STATE.board_version =
        w.GLOBAL_STATE.board_version ∧
      (POWER_MANAGEMENT_cycle c l hw w).world.pm.HAS_PLUG_SENSE = w.pm.HAS_PLUG_SENSE ∧
      (POWER_MANAGEMENT_cycle c l hw w).world.pm.HAS_POWER_EN = w.pm.HAS_POWER_EN ∧
      (POWER_MANAGEMENT_cycle c l hw w).world.pm.frequency_value = w.pm.frequency_value := by
  obtain ⟨f1, f2, f3, f4, f5, f6, _⟩ := overheat_check_frame c hw (acquire_telemetry hw w)
  rw [acquire_device_model] at f1
  rw [acquire_asic_model] at f2
  rw [acquire_board_version] at f3
  rw [acquire_HAS_PLUG_SENSE] at f4
  rw [acquire_HAS_POWER_EN] at f5
  rw [acquire_frequency_value] at f6
  have hpm := cycle_pm c l hw w
  refine ⟨?_, ?_, ?_, ?_, ?_, ?_⟩
  · cases h : (overheat_check c hw (acquire_telemetry hw w)).isExited
    · rw [cycle_running c l hw w h]
      simp [(plug_sense_GLOBAL_STATE _ _).1, (fan_control_GLOBAL_STATE_ids _ _).1, f1]
    · rw [cycle_exited c l hw w h]; exact f1
  · cases h : (overheat_check c hw (acquire_telemetry hw w)).isExited
    · rw [cycle_running c l hw w h]
      simp [(plug_sense_GLOBAL_STATE _ _).1, (fan_control_GLOBAL_STATE_ids _ _).2.1, f2]
    · rw [cycle_exited c l hw w h]; exact f2
  · cases h : (overheat_check c hw (acquire_telemetry hw w)).isExited
    · rw [cycle_running c l hw w h]
      simp [(plug_sense_GLOBAL_STATE _ _).1, (fan_control_GLOBAL_STATE_ids _ _).2.2.1, f3]
    · rw [cycle_exited c l hw w h]; exact f3
  · rw [hpm]; exact f4
  · rw [hpm]; exact f5
  · rw [hpm]; exact f6

theorem cycle_effects (c : BuildConfig) (l : Locals) (hw : Sensors) (w : World) :
    (POWER_MANAGEMENT_cycle c l hw w).world.trace.filter Action.isEffect =
      w.trace.filter Action.isEffect ++
        (if (POWER_MANAGEMENT_cycle c l hw w).isExited = true then trip_effects w
         else
          fan_writes w.GLOBAL_STATE.device_model
              ((POWER_MANAGEMENT_cycle c l hw w).world.pm.fan_perc / 100) ++
            (if w.pm.HAS_PLUG_SENSE = true ∧ hw.gpio_get_level GPIO_NUM_12 = 0 then
              [Action.gpio_set_level GPIO_NUM_10 1] else [])) := by
  obtain ⟨f1, _, _, f4, _, _, _⟩ := overheat_check_frame c hw (acquire_telemetry hw w)
  rw [acquire_device_model] at f1
  rw [acquire_HAS_PLUG_SENSE] at f4
  have he := overheat_check_effects c hw (acquire_telemetry hw w)
  rw [acquire_effects, trip_effects_acquire] at he
  rw [cycle_isExited]
  cases h : (overheat_check c hw (acquire_telemetry hw w)).isExited
  · rw [h] at he
    rw [cycle_running c l hw w h]
    simp only [world_running, world_exited, call_trace, call_pm, plug_sense_pm, plug_sense_trace,
      fan_control_trace, List.filter_append, fan_writes_filter, plug_sense_calls_filter]
    rw [he, f1, (fan_control_pm l _), f4]
    by_cases ha : l.auto_fan_speed = 1 <;> simp [ha, Action.isEffect]
  · rw [h] at he
    rw [cycle_exited c l hw w h]
    simpa using he

theorem nvs_get_le (s : NvsStore) (k : NvsKey) (d : Nat) : nvs_config_get_u16 s k d ≤ 65535 := by
  unfold nvs_config_get_u16
  omega

theorem filter_isFanWrite_of_effects (tr : List Action) :
    (tr.filter Action.isEffect).filter Action.isFanWrite = tr.filter Action.isFanWrite := by
  rw [List.filter_filter]
  congr 1
  funext a
  cases a <;> rfl

theorem fan_writes_filter_isFanWrite (dm : DeviceModel) (x : ℚ) :
    (fan_writes dm x).filter Action.isFanWrite = fan_writes dm x := by
  cases dm <;> simp [fan_writes, Action.isFanWrite]

theorem safe_defaults_store_apply (s : NvsStore) (k : NvsKey) :
    safe_defaults_store s k =
      (if k = .NVS_CONFIG_OVERHEAT_MODE then some 1
       else if k = .NVS_CONFIG_AUTO_FAN_SPEED then some 0
       else if k = .NVS_CONFIG_FAN_SPEED then some 100
       else if k = .NVS_CONFIG_ASIC_FREQ then some 50
       else if k = .NVS_CONFIG_ASIC_VOLTAGE then some 1000
       else s k) := by
  simp [safe_defaults_store, nvs_config_set_u16]

theorem safe_defaults_store_idem (s : NvsStore) :
    safe_defaults_store (safe_defaults_store s) = safe_defaults_store s := by
  funext k
  rw [safe_defaults_store_apply, safe_defaults_store_apply]
  split_ifs <;> rfl

/-! ## The start-up section -/

theorem init_locals (c : BuildConfig) (boot : Sensors) (w : World) :
    (POWER_MANAGEMENT_init c boot w).1.auto_fan_speed =
        nvs_config_get_u16 w.nvs .NVS_CONFIG_AUTO_FAN_SPEED 1 ∧
      (POWER_MANAGEMENT_init c boot w).1.frequency_target =
        nvs_config_get_u16 w.nvs .NVS_CONFIG_ASIC_FREQ c.CONFIG_ASIC_FREQUENCY := by
  unfold POWER_MANAGEMENT_init
  simp

theorem init_frame (c : BuildConfig) (boot : Sensors) (w : World) :
    (POWER_MANAGEMENT_init c boot w).2.GLOBAL_STATE.device_model = w.GLOBAL_STATE.device_model ∧
      (POWER_MANAGEMENT_init c boot w).2.GLOBAL_STATE.asic_model = w.GLOBAL_STATE.asic_model ∧
      (POWER_MANAGEMENT_init c boot w).2.GLOBAL_STATE.board_version = w.GLOBAL_STATE.board_version ∧
      (POWER_MANAGEMENT_init c boot w).2.nvs = w.nvs ∧
      (POWER_MANAGEMENT_init c boot w).2.pm.frequency_value = w.pm.frequency_value ∧
      (POWER_MANAGEMENT_init c boot w).2.pm.HAS_POWER_EN =
        decide (w.GLOBAL_STATE.board_version = 202 ∨ w.GLOBAL_STATE.board_version = 203 ∨
          w.GLOBAL_STATE.board_version = 204) ∧
      (POWER_MANAGEMENT_init c boot w).2.pm.HAS_PLUG_SENSE =
        decide (w.GLOBAL_STATE.board_version = 204) := by
  unfold POWER_MANAGEMENT_init
  cases hd : w.GLOBAL_STATE.device_model <;>
    simp only [hd, setPM_device_model, call_GLOBAL_STATE, setPM_board_version] <;>
    (try split_ifs) <;> simp [hd]

theorem init_trace_unknown (c : BuildConfig) (boot : Sensors) (w : World)
    (hd : w.GLOBAL_STATE.device_model = .DEVICE_UNKNOWN) :
    (POWER_MANAGEMENT_init c boot w).2.trace = w.trace ++
      [Action.nvs_config_get_u16 .NVS_CONFIG_ASIC_FREQ,
       Action.nvs_config_get_u16 .NVS_CONFIG_AUTO_FAN_SPEED, Action.vTaskDelay 3000] := by
  unfold POWER_MANAGEMENT_init
  simp [hd]

theorem init_fan_writes (c : BuildConfig) (boot : Sensors) (w : World) :
    (POWER_MANAGEMENT_init c boot w).2.trace.filter Action.isFanWrite =
      w.trace.filter Action.isFanWrite := by
  unfold POWER_MANAGEMENT_init
  cases hd : w.GLOBAL_STATE.device_model <;>
    simp only [hd, setPM_device_model, call_GLOBAL_STATE, setPM_board_version] <;>
    (try split_ifs) <;> simp [hd, List.filter_append, Action.isFanWrite]

/-! ## Outcomes -/

theorem outcome_running_of (o : Outcome) (h : o.isExited = false) : o = .running o.world := by
  cases o
  · rfl
  · simp at h

theorem outcome_exited_of (o : Outcome) (h : o.isExited = true) : o = .exited o.world := by
  cases o
  · simp at h
  · rfl

theorem loop_nil (c : BuildConfig) (l : Locals) (w : World) :
    POWER_MANAGEMENT_loop c l [] w = .running w := rfl

theorem loop_cons_running (c : BuildConfig) (l : Locals) (hw : Sensors) (rest : List Sensors)
    (w : World) (h : (POWER_MANAGEMENT_cycle c l hw w).isExited = false) :
    POWER_MANAGEMENT_loop c l (hw :: rest) w =
      POWER_MANAGEMENT_loop c l rest (POWER_MANAGEMENT_cycle c l hw w).world := by
  have h1 := outcome_running_of _ h
  rw [POWER_MANAGEMENT_loop]
  generalize POWER_MANAGEMENT_cycle c l hw w = o at *
  rw [h1]
  rfl

theorem loop_cons_exited (c : BuildConfig) (l : Locals) (hw : Sensors) (rest : List Sensors)
    (w : World) (h : (POWER_MANAGEMENT_cycle c l hw w).isExited = true) :
    POWER_MANAGEMENT_loop c l (hw :: rest) w =
      .exited (POWER_MANAGEMENT_cycle c l hw w).world := by
  have h1 := outcome_exited_of _ h
  rw [POWER_MANAGEMENT_loop]
  generalize POWER_MANAGEMENT_cycle c l hw w = o at *
  rw [h1]
  rfl

/-! ## Unknown device models -/

theorem fan_control_HAS_PLUG_SENSE (l : Locals) (w : World) :
    (fan_control l w).pm.HAS_PLUG_SENSE = w.pm.HAS_PLUG_SENSE := by
  rw [fan_control_pm]

theorem cycle_unknown (c : BuildConfig) (l : Locals) (hw : Sensors) (w : World)
    (hd : w.GLOBAL_STATE.device_model = .DEVICE_UNKNOWN) :
    (POWER_MANAGEMENT_cycle c l hw w).isExited = false ∧
      (POWER_MANAGEMENT_cycle c l hw w).world.trace = w.trace ++
        ((if l.auto_fan_speed = 1 then [] else [Action.nvs_config_get_u16 .NVS_CONFIG_FAN_SPEED]) ++
          plug_sense_calls w.pm.HAS_PLUG_SENSE (hw.gpio_get_level GPIO_NUM_12) ++
          [Action.vTaskDelay POLL_RATE]) := by
  have hx : (overheat_check c hw (acquire_telemetry hw w)).isExited = false := by
    rw [acquire_unknown hw w hd, overheat_check_unknown c hw w hd]; rfl
  rw [cycle_isExited]
  refine ⟨hx, ?_⟩
  rw [cycle_running c l hw w hx, acquire_unknown hw w hd, overheat_check_unknown c hw w hd]
  simp only [world_running, call_trace, plug_sense_trace, fan_control_trace,
    fan_control_HAS_PLUG_SENSE, hd, fan_writes, List.append_nil, List.append_assoc]

theorem cycle_unknown_passive (c : BuildConfig) (l : Locals) (hw : Sensors) (w : World)
    (hd : w.GLOBAL_STATE.device_model = .DEVICE_UNKNOWN) :
    ∃ seg, (POWER_MANAGEMENT_cycle c l hw w).world.trace = w.trace ++ seg ∧
      (∀ a ∈ seg, Action.isPassive w.pm.HAS_PLUG_SENSE a) ∧
      seg.count (Action.vTaskDelay POLL_RATE) = 1 := by
  refine ⟨_, (cycle_unknown c l hw w hd).2, ?_, ?_⟩
  · unfold plug_sense_calls
    cases hp : w.pm.HAS_PLUG_SENSE <;>
      by_cases h1 : l.auto_fan_speed = 1 <;>
      by_cases h2 : hw.gpio_get_level GPIO_NUM_12 = 0 <;>
      simp [hp, h1, h2, Action.isPassive, Action.isSensorRead, Action.isFanWrite,
        Action.isCoreVoltageWrite, Action.isGpioAccess]
  · unfold plug_sense_calls
    cases hp : w.pm.HAS_PLUG_SENSE <;>
      by_cases h1 : l.auto_fan_speed = 1 <;>
      by_cases h2 : hw.gpio_get_level GPIO_NUM_12 = 0 <;>
      simp [hp, h1, h2, List.count_cons, POLL_RATE]

theorem loop_unknown (c : BuildConfig) (l : Locals) (cycles : List Sensors) :
    ∀ w : World, w.GLOBAL_STATE.device_model = .DEVICE_UNKNOWN →
      (POWER_MANAGEMENT_loop c l cycles w).isExited = false ∧
      (POWER_MANAGEMENT_loop c l cycles w).world.nvs = w.nvs ∧
      ∃ seg, (POWER_MANAGEMENT_loop c l cycles w).world.trace = w.trace ++ seg ∧
        (∀ a ∈ seg, Action.isPassive w.pm.HAS_PLUG_SENSE a) ∧
        seg.count (Action.vTaskDelay POLL_RATE) = cycles.length := by
  induction cycles with
  | nil =>
    intro w _
    exact ⟨rfl, rfl, [], by simp [loop_nil], by simp, rfl⟩
  | cons hw rest ih =>
    intro w hd
    have hx := (cycle_unknown c l hw w hd).1
    obtain ⟨f1, _, _, f4, _, _⟩ := cycle_frame c l hw w
    obtain ⟨seg1, t1, p1, c1⟩ := cycle_unknown_passive c l hw w hd
    obtain ⟨i1, i2, seg2, t2, p2, c2⟩ := ih (POWER_MANAGEMENT_cycle c l hw w).world (by rw [f1, hd])
    have hn := cycle_nvs c l hw w
    rw [hx] at hn
    rw [loop_cons_running c l hw rest w hx]
    refine ⟨i1, by rw [i2]; simpa using hn, seg1 ++ seg2, ?_, ?_, ?_⟩
    · rw [t2, t1, List.append_assoc]
    · intro a ha
      rcases List.mem_append.mp ha with h | h
      · exact p1 a h
      · have := p2 a h
        rwa [f4] at this
    · rw [List.count_append, c1, c2, List.length_cons, Nat.add_comm]

/-! ## Fan writes and the BM1397 family -/

theorem trip_effects_filter_isFanWrite (w : World) :
    (trip_effects w).filter Action.isFanWrite = fan_writes w.GLOBAL_STATE.device_model 1 := by
  unfold trip_effects power_removal_calls safe_default_writes
  simp only [List.filter_append, fan_writes_filter_isFanWrite]
  split_ifs <;> simp [Action.isFanWrite]

/-- The fan writes of a cycle: duty 1 on every fan of the board when the cycle
trips, the duty `fan_perc / 100` of the fan policy otherwise. -/
theorem cycle_fan_writes (c : BuildConfig) (l : Locals) (hw : Sensors) (w : World) :
    (POWER_MANAGEMENT_cycle c l hw w).world.trace.filter Action.isFanWrite =
      w.trace.filter Action.isFanWrite ++
        fan_writes w.GLOBAL_STATE.device_model
          (if (POWER_MANAGEMENT_cycle c l hw w).isExited = true then 1
           else (POWER_MANAGEMENT_cycle c l hw w).world.pm.fan_perc / 100) := by
  have he := cycle_effects c l hw w
  rw [← filter_isFanWrite_of_effects, he]
  cases h : (POWER_MANAGEMENT_cycle c l hw w).isExited
  · simp only [Bool.false_eq_true, if_false, List.filter_append, filter_isFanWrite_of_effects,
      fan_writes_filter_isFanWrite]
    split_ifs <;> simp [Action.isFanWrite]
  · simp only [if_true, List.filter_append, filter_isFanWrite_of_effects,
      trip_effects_filter_isFanWrite]

/-- Verdict of a cycle of the BM1397 family on MAX, ULTRA and SUPRA boards. -/
theorem cycle_bm1397 (c : BuildConfig) (l : Locals) (hw : Sensors) (w : World)
    (hasic : w.GLOBAL_STATE.asic_model = .ASIC_BM1397)
    (hdev : w.GLOBAL_STATE.device_model = .DEVICE_MAX ∨
      w.GLOBAL_STATE.device_model = .DEVICE_ULTRA ∨
      w.GLOBAL_STATE.device_model = .DEVICE_SUPRA) :
    ((POWER_MANAGEMENT_cycle c l hw w).isExited = true ↔
        hw.EMC2101_get_external_temp > 75 ∧
          (w.pm.frequency_value > 50 ∨ (acquire_telemetry hw w).pm.voltage > 1000)) ∧
      (POWER_MANAGEMENT_cycle c l hw w).world.pm.chip_temp_avg = hw.EMC2101_get_external_temp := by
  have key := overheat_check_bm1397 c hw (acquire_telemetry hw w)
    (by rw [acquire_asic_model]; exact hasic) (by rw [acquire_device_model]; exact hdev)
  rw [acquire_frequency_value] at key
  rw [cycle_isExited, cycle_pm]
  exact ⟨key.1, key.2.1⟩

theorem cycle_bm1397_normal (c : BuildConfig) (l : Locals) (hw : Sensors) (w : World)
    (hasic : w.GLOBAL_STATE.asic_model = .ASIC_BM1397)
    (hdev : w.GLOBAL_STATE.device_model = .DEVICE_MAX ∨
      w.GLOBAL_STATE.device_model = .DEVICE_ULTRA ∨
      w.GLOBAL_STATE.device_model = .DEVICE_SUPRA)
    (ht : hw.EMC2101_get_external_temp ≤ 75) :
    (POWER_MANAGEMENT_cycle c l hw w).isExited = false := by
  cases h : (POWER_MANAGEMENT_cycle c l hw w).isExited
  · rfl
  · exact absurd ((cycle_bm1397 c l hw w hasic hdev).1.mp h).1 (not_lt.mpr ht)

theorem automatic_fan_speed_result_30 : automatic_fan_speed_result 30 = 35 := by
  norm_num [automatic_fan_speed_result, THROTTLE_TEMP]

theorem automatic_fan_speed_result_50 : automatic_fan_speed_result 50 = 275 / 6 := by
  norm_num [automatic_fan_speed_result, THROTTLE_TEMP]

/-! ## A run of three cycles -/

/-- Three consecutive cycles of the BM1397 family with chip temperatures 30, 50
and 76 in automatic fan mode, above the operating-point guard. -/
theorem three_cycle_run (c : BuildConfig) (boot s1 s2 s3 : Sensors) (w : World)
    (hasic : w.GLOBAL_STATE.asic_model = .ASIC_BM1397)
    (hdev : w.GLOBAL_STATE.device_model = .DEVICE_MAX ∨
      w.GLOBAL_STATE.device_model = .DEVICE_ULTRA ∨
      w.GLOBAL_STATE.device_model = .DEVICE_SUPRA)
    (hbv : w.GLOBAL_STATE.board_version ≠ 202 ∧ w.GLOBAL_STATE.board_version ≠ 203 ∧
      w.GLOBAL_STATE.board_version ≠ 204)
    (hauto : nvs_config_get_u16 w.nvs .NVS_CONFIG_AUTO_FAN_SPEED 1 = 1)
    (h1 : s1.EMC2101_get_external_temp = 30)
    (h2 : s2.EMC2101_get_external_temp = 50)
    (h3 : s3.EMC2101_get_external_temp = 76)
    (hg : 50 < w.pm.frequency_value ∨
      1000 < (acquire_telemetry s3 (POWER_MANAGEMENT_task c boot [s1, s2] w).world).pm.voltage) :
    (POWER_MANAGEMENT_init c boot w).2.pm.HAS_POWER_EN = false ∧
      (POWER_MANAGEMENT_init c boot w).2.pm.HAS_PLUG_SENSE = false ∧
      (POWER_MANAGEMENT_task c boot [s1] w).isExited = false ∧
      (POWER_MANAGEMENT_task c boot [s1] w).world.pm.fan_perc = 35 ∧
      (POWER_MANAGEMENT_task c boot [s1, s2] w).isExited = false ∧
      (POWER_MANAGEMENT_task c boot [s1, s2] w).world.pm.fan_perc = 275 / 6 ∧
      (POWER_MANAGEMENT_task c boot [s1, s2, s3] w).isExited = true ∧
      (POWER_MANAGEMENT_task c boot [s1, s2, s3] w).world.trace.filter Action.isFanWrite =
        w.trace.filter Action.isFanWrite ++
          [Action.EMC2101_set_fan_speed (35 / 100),
           Action.EMC2101_set_fan_speed ((275 / 6) / 100),
           Action.EMC2101_set_fan_speed 1] ∧
      (POWER_MANAGEMENT_task c boot [s1, s2, s3] w).world.nvs .NVS_CONFIG_ASIC_FREQ = some 50 ∧
      (POWER_MANAGEMENT_task c boot [s1, s2, s3] w).world.nvs .NVS_CONFIG_ASIC_VOLTAGE = some 1000 ∧
      (POWER_MANAGEMENT_task c boot [s1, s2, s3] w).world.nvs .NVS_CONFIG_FAN_SPEED = some 100 ∧
      (POWER_MANAGEMENT_task c boot [s1, s2, s3] w).world.nvs .NVS_CONFIG_AUTO_FAN_SPEED = some 0 ∧
      (POWER_MANAGEMENT_task c boot [s1, s2, s3] w).world.nvs .NVS_CONFIG_OVERHEAT_MODE = some 1 := by
  obtain ⟨i1, i2, i3, i4, i5, i6, i7⟩ := init_frame c boot w
  have hl : (POWER_MANAGEMENT_init c boot w).1.auto_fan_speed = 1 := by
    rw [(init_locals c boot w).1]; exact hauto
  have hfw0 := init_fan_writes c boot w
  -- abbreviations for the start-up result
  generalize hL : (POWER_MANAGEMENT_init c boot w).1 = l at *
  generalize hW : (POWER_MANAGEMENT_init c boot w).2 = w0 at *
  have hdev0 : w0.GLOBAL_STATE.device_model = .DEVICE_MAX ∨
      w0.GLOBAL_STATE.device_model = .DEVICE_ULTRA ∨
      w0.GLOBAL_STATE.device_model = .DEVICE_SUPRA := by rw [i1]; exact hdev
  have hasic0 : w0.GLOBAL_STATE.asic_model = .ASIC_BM1397 := by rw [i2]; exact hasic
  -- first cycle
  have x1 : (POWER_MANAGEMENT_cycle c l s1 w0).isExited = false :=
    cycle_bm1397_normal c l s1 w0 hasic0 hdev0 (by rw [h1]; norm_num)
  obtain ⟨a1, a2, _, _, _, a6⟩ := cycle_frame c l s1 w0
  have p1 : (POWER_MANAGEMENT_cycle c l s1 w0).world.pm.fan_perc = 35 := by
    rw [cycle_fan_perc c l s1 w0 x1, if_pos hl, (cycle_bm1397 c l s1 w0 hasic0 hdev0).2, h1]
    exact automatic_fan_speed_result_30
  have fw1 := cycle_fan_writes c l s1 w0
  rw [x1, p1] at fw1
  generalize hW1 : (POWER_MANAGEMENT_cycle c l s1 w0).world = w1 at *
  have hdev1 : w1.GLOBAL_STATE.device_model = .DEVICE_MAX ∨
      w1.GLOBAL_STATE.device_model = .DEVICE_ULTRA ∨
      w1.GLOBAL_STATE.device_model = .DEVICE_SUPRA := by rw [a1]; exact hdev0
  have hasic1 : w1.GLOBAL_STATE.asic_model = .ASIC_BM1397 := by rw [a2]; exact hasic0
  -- second cycle
  have x2 : (POWER_MANAGEMENT_cycle c l s2 w1).isExited = false :=
    cycle_bm1397_normal c l s2 w1 hasic1 hdev1 (by rw [h2]; norm_num)
  obtain ⟨b1, b2, _, _, _, b6⟩ := cycle_frame c l s2 w1
  have p2 : (POWER_MANAGEMENT_cycle c l s2 w1).world.pm.fan_perc = 275 / 6 := by
    rw [cycle_fan_perc c l s2 w1 x2, if_pos hl, (cycle_bm1397 c l s2 w1 hasic1 hdev1).2, h2]
    exact automatic_fan_speed_result_50
  have fw2 := cycle_fan_writes c l s2 w1
  rw [x2, p2] at fw2
  have t1 : POWER_MANAGEMENT_task c boot [s1] w = .running w1 := by
    unfold POWER_MANAGEMENT_task
    simp only [hL, hW]
    rw [loop_cons_running c l s1 [] w0 x1, hW1, loop_nil]
  have t2 : POWER_MANAGEMENT_task c boot [s1, s2] w =
      .running (POWER_MANAGEMENT_cycle c l s2 w1).world := by
    unfold POWER_MANAGEMENT_task
    simp only [hL, hW]
    rw [loop_cons_running c l s1 _ w0 x1, hW1, loop_cons_running c l s2 [] w1 x2, loop_nil]
  rw [t2, world_running] at hg
  generalize hW2 : (POWER_MANAGEMENT_cycle c l s2 w1).world = w2 at *
  have hdev2 : w2.GLOBAL_STATE.device_model = .DEVICE_MAX ∨
      w2.GLOBAL_STATE.device_model = .DEVICE_ULTRA ∨
      w2.GLOBAL_STATE.device_model = .DEVICE_SUPRA := by rw [b1]; exact hdev1
  have hasic2 : w2.GLOBAL_STATE.asic_model = .ASIC_BM1397 := by rw [b2]; exact hasic1
  -- third cycle
  have x3 : (POWER_MANAGEMENT_cycle c l s3 w2).isExited = true := by
    apply (cycle_bm1397 c l s3 w2 hasic2 hdev2).1.mpr
    refine ⟨by rw [h3]; norm_num, ?_⟩
    rw [b6, a6, i5]
    exact hg
  have fw3 := cycle_fan_writes c l s3 w2
  rw [x3, if_pos rfl] at fw3
  have n3 := cycle_nvs c l s3 w2
  rw [x3, if_pos rfl] at n3
  have t3 : POWER_MANAGEMENT_task c boot [s1, s2, s3] w =
      .exited (POWER_MANAGEMENT_cycle c l s3 w2).world := by
    unfold POWER_MANAGEMENT_task
    simp only [hL, hW]
    rw [loop_cons_running c l s1 _ w0 x1, hW1, loop_cons_running c l s2 _ w1 x2, hW2,
      loop_cons_exited c l s3 [] w2 x3]
  have hfan0 : fan_writes w0.GLOBAL_STATE.device_model = fun x => [Action.EMC2101_set_fan_speed x] := by
    funext x
    rcases hdev0 with h | h | h <;> rw [h] <;> rfl
  have hpe : decide (w.GLOBAL_STATE.board_version = 202 ∨ w.GLOBAL_STATE.board_version = 203 ∨
      w.GLOBAL_STATE.board_version = 204) = false := by
    simp [hbv.1, hbv.2.1, hbv.2.2]
  have hps : decide (w.GLOBAL_STATE.board_version = 204) = false := by
    simp [hbv.2.2]
  refine ⟨by rw [i6, hpe], by rw [i7, hps], ?_, ?_, ?_, ?_, ?_, ?_, ?_, ?_, ?_, ?_, ?_⟩
  · rw [t1]; rfl
  · rw [t1]; exact p1
  · rw [t2]; rfl
  · rw [t2]; exact p2
  · rw [t3]; rfl
  · rw [t3, world_exited, fw3, fw2, fw1, hfw0, b1, a1, hfan0]
    simp
  · rw [t3, world_exited, n3, safe_defaults_store_apply]; simp
  · rw [t3, world_exited, n3, safe_defaults_store_apply]; simp
  · rw [t3, world_exited, n3, safe_defaults_store_apply]; simp
  · rw [t3, world_exited, n3, safe_defaults_store_apply]; simp
  · rw [t3, world_exited, n3, safe_defaults_store_apply]; simp

/-! ## Verdicts in terms of driver values -/

/-- Verdict of a cycle of the BM1366/BM1368 family on the HEX board, in terms of
the driver values of the cycle. -/
theorem cycle_dual_hex (c : BuildConfig) (l : Locals) (hw : Sensors) (w : World)
    (hasic : w.GLOBAL_STATE.asic_model = .ASIC_BM1366 ∨ w.GLOBAL_STATE.asic_model = .ASIC_BM1368)
    (hdev : w.GLOBAL_STATE.device_model = .DEVICE_HEX) :
    ((POWER_MANAGEMENT_cycle c l hw w).isExited = true ↔
      (hw.TPS546_get_temperature > 105 ∨
          (hw.TMP1075_read_temperature_again 0 + hw.TMP1075_read_temperature_again 1) / 2 + 5 > 75) ∧
        (w.pm.frequency_value > 50 ∨ hw.TPS546_get_vin * 1000 > 1000)) := by
  have key := overheat_check_dual_hex c hw (acquire_telemetry hw w)
    (by rw [acquire_asic_model]; exact hasic) (by rw [acquire_device_model]; exact hdev)
  obtain ⟨k1, k2, k3, _, _⟩ := key
  have hv : (acquire_telemetry hw w).pm.voltage = hw.TPS546_get_vin * 1000 := by
    unfold acquire_telemetry
    simp [hdev]
  rw [cycle_isExited, k1, k2, k3, acquire_frequency_value, hv]

/-- Verdict of a cycle of the BM1366/BM1368 family on a MAX, ULTRA or SUPRA board
of revision 402, in terms of the driver values of the cycle. -/
theorem cycle_dual_max_402 (c : BuildConfig) (l : Locals) (hw : Sensors) (w : World)
    (hasic : w.GLOBAL_STATE.asic_model = .ASIC_BM1366 ∨ w.GLOBAL_STATE.asic_model = .ASIC_BM1368)
    (hdev : w.GLOBAL_STATE.device_model = .DEVICE_MAX ∨
      w.GLOBAL_STATE.device_model = .DEVICE_ULTRA ∨
      w.GLOBAL_STATE.device_model = .DEVICE_SUPRA)
    (hb : w.GLOBAL_STATE.board_version = 402) :
    ((POWER_MANAGEMENT_cycle c l hw w).isExited = true ↔
      ¬ (hw.TPS546_get_vin * 1000 < c.TPS546_INIT_VOUT_MIN) ∧
        (hw.TPS546_get_temperature > 105 ∨ hw.EMC2101_get_external_temp > 75) ∧
        (w.pm.frequency_value > 50 ∨ hw.TPS546_get_vin * 1000 > 1000)) := by
  have key := overheat_check_dual_max c hw (acquire_telemetry hw w)
    (by rw [acquire_asic_model]; exact hasic) (by rw [acquire_device_model]; exact hdev)
  obtain ⟨k1, k2, k3, _, _⟩ := key
  have hv : (acquire_telemetry hw w).pm.voltage = hw.TPS546_get_vin * 1000 := by
    unfold acquire_telemetry
    rcases hdev with h | h | h <;> simp [h, hb]
  rw [acquire_board_version, if_pos hb] at k2 k3
  rw [cycle_isExited, k1, k2, k3, acquire_frequency_value, hv]

theorem loop_single (c : BuildConfig) (l : Locals) (hw : Sensors) (w : World) :
    POWER_MANAGEMENT_loop c l [hw] w = POWER_MANAGEMENT_cycle c l hw w := by
  cases h : (POWER_MANAGEMENT_cycle c l hw w).isExited
  · rw [loop_cons_running c l hw [] w h, loop_nil]
    exact (outcome_running_of _ h).symm
  · rw [loop_cons_exited c l hw [] w h]
    exact (outcome_exited_of _ h).symm

theorem sample_supra_402_trips :
    (POWER_MANAGEMENT_cycle sampleConfig sampleLocals (sampleSensors 76 5)
      (sampleWorld .DEVICE_SUPRA .ASIC_BM1368 402)).isExited = true := by
  rw [cycle_dual_max_402 _ _ _ _ (Or.inr rfl) (Or.inr (Or.inr rfl)) rfl]
  norm_num [sampleSensors, sampleConfig, sampleWorld, sampleModule, World.pm]

theorem sample_hex_trips :
    (POWER_MANAGEMENT_cycle sampleConfig sampleLocals (sampleSensors 76 5)
      (sampleWorld .DEVICE_HEX .ASIC_BM1366 0)).isExited = true := by
  rw [cycle_dual_hex _ _ _ _ (Or.inl rfl) rfl]
  norm_num [sampleSensors, sampleConfig, sampleWorld, sampleModule, World.pm]

theorem sample_max_bm1366_402_trips :
    (POWER_MANAGEMENT_cycle sampleConfig sampleLocals (sampleSensors 76 5)
      (sampleWorld .DEVICE_MAX .ASIC_BM1366 402)).isExited = true := by
  rw [cycle_dual_max_402 _ _ _ _ (Or.inl rfl) (Or.inl rfl) rfl]
  norm_num [sampleSensors, sampleConfig, sampleWorld, sampleModule, World.pm]

/-! ## Theorems on the fan curve -/

/-- C4: for every chip temperature `t` and every state of the device (every
device model), `automatic_fan_speed` returns 35 when `t < 45`, 100 when `t >= 75`
and `35 + (t - 45) / (75 - 45) * (100 - 35)` in between; the returned value is the
same for every device model, which only selects the fan actuator that receives
`result / 100`. -/
theorem automatic_fan_speed_reference_curve (t : ℚ) (w : World) :
    (automatic_fan_speed t w).1 =
        (if t < 45 then 35
         else if t ≥ 75 then 100
         else 35 + (t - 45) / (75 - 45) * (100 - 35)) ∧
      (∀ w2 : World, (automatic_fan_speed t w2).1 = (automatic_fan_speed t w).1) ∧
      (automatic_fan_speed t w).2.GLOBAL_STATE = w.GLOBAL_STATE ∧
      (automatic_fan_speed t w).2.nvs = w.nvs ∧
      (automatic_fan_speed t w).2.trace = w.trace ++
        (match w.GLOBAL_STATE.device_model with
         | .DEVICE_MAX | .DEVICE_ULTRA | .DEVICE_SUPRA =>
           [Action.EMC2101_set_fan_speed ((automatic_fan_speed t w).1 / 100)]
         | .DEVICE_HEX =>
           [Action.EMC2302_set_fan_speed 0 ((automatic_fan_speed t w).1 / 100),
            Action.EMC2302_set_fan_speed 1 ((automatic_fan_speed t w).1 / 100)]
         | .DEVICE_UNKNOWN => []) := by
  refine ⟨?_, ?_, ?_, ?_, ?_⟩
  · rw [automatic_fan_speed_fst]
    unfold automatic_fan_speed_result THROTTLE_TEMP
    simp only
    split_ifs <;> ring
  · intro w2
    rw [automatic_fan_speed_fst, automatic_fan_speed_fst]
  · unfold automatic_fan_speed
    cases w.GLOBAL_STATE.device_model <;> rfl
  · unfold automatic_fan_speed
    cases w.GLOBAL_STATE.device_model <;> rfl
  · unfold automatic_fan_speed
    cases w.GLOBAL_STATE.device_model <;> simp [World.call]

/-- C10: `automatic_fan_speed` is monotonically non-decreasing in the chip
temperature: for all temperatures `t1 <= t2` (in particular within `[45, 75]`,
and across the two break points 45 and 75) and all device states, the value
returned for `t1` is at most the value returned for `t2`. -/
theorem automatic_fan_speed_monotone (t1 t2 : ℚ) (w1 w2 : World) (h : t1 ≤ t2) :
    (automatic_fan_speed t1 w1).1 ≤ (automatic_fan_speed t2 w2).1 := by
  rw [automatic_fan_speed_fst, automatic_fan_speed_fst]
  exact automatic_fan_speed_result_mono t1 t2 h

/-! ## Theorems on the overheat verdict -/

/-- C1: single-temperature-source family (ASIC BM1397 on a MAX, ULTRA or SUPRA
board). For every chip temperature the EMC2101 reports, every frequency value of
the module and every measured voltage, one poll cycle ends in the Overheat
verdict (the branch that persists the safe configuration and exits) if and only
if chip temperature > 75 and (frequency > 50 or voltage > 1000). With voltage
1000 and frequency 50 the verdict is Normal for every temperature; with chip
temperature 76, frequency 800 and voltage 1200 it is Overheat. -/
theorem single_source_overheat_iff (c : BuildConfig) (l : Locals) (hw : Sensors) (w : World)
    (hasic : w.GLOBAL_STATE.asic_model = .ASIC_BM1397)
    (hdev : w.GLOBAL_STATE.device_model = .DEVICE_MAX ∨
      w.GLOBAL_STATE.device_model = .DEVICE_ULTRA ∨
      w.GLOBAL_STATE.device_model = .DEVICE_SUPRA) :
    ((POWER_MANAGEMENT_cycle c l hw w).isExited = true ↔
        hw.EMC2101_get_external_temp > 75 ∧
          (w.pm.frequency_value > 50 ∨ (acquire_telemetry hw w).pm.voltage > 1000)) ∧
      (POWER_MANAGEMENT_cycle c l hw w).world.pm.chip_temp_avg = hw.EMC2101_get_external_temp ∧
      (POWER_MANAGEMENT_cycle c l hw w).world.pm.frequency_value = w.pm.frequency_value ∧
      (POWER_MANAGEMENT_cycle c l hw w).world.pm.voltage = (acquire_telemetry hw w).pm.voltage ∧
      ((acquire_telemetry hw w).pm.voltage = 1000 → w.pm.frequency_value = 50 →
        (POWER_MANAGEMENT_cycle c l hw w).isExited = false) ∧
      (hw.EMC2101_get_external_temp = 76 → w.pm.frequency_value = 800 →
        (acquire_telemetry hw w).pm.voltage = 1200 →
        (POWER_MANAGEMENT_cycle c l hw w).isExited = true) := by
  have key := overheat_check_bm1397 c hw (acquire_telemetry hw w)
    (by rw [acquire_asic_model]; exact hasic) (by rw [acquire_device_model]; exact hdev)
  rw [acquire_frequency_value] at key
  obtain ⟨k1, k2, k3, k4⟩ := key
  have e1 : (POWER_MANAGEMENT_cycle c l hw w).world.pm.chip_temp_avg =
      hw.EMC2101_get_external_temp := by rw [cycle_pm]; exact k2
  have e2 : (POWER_MANAGEMENT_cycle c l hw w).world.pm.frequency_value =
      w.pm.frequency_value := by rw [cycle_pm]; exact k3
  have e3 : (POWER_MANAGEMENT_cycle c l hw w).world.pm.voltage =
      (acquire_telemetry hw w).pm.voltage := by rw [cycle_pm]; exact k4
  rw [cycle_isExited]
  refine ⟨k1, e1, e2, e3, ?_, ?_⟩
  · intro hv hf
    cases hx : (overheat_check c hw (acquire_telemetry hw w)).isExited
    · rfl
    · have h := k1.mp hx
      rw [hv, hf] at h
      rcases h.2 with h2 | h2 <;> exact absurd h2 (lt_irrefl _)
  · intro ht hf hv
    apply k1.mpr
    rw [ht, hf]
    exact ⟨by norm_num, Or.inl (by norm_num)⟩

theorem single_source_overheat_iff_witness :
    (sampleWorld .DEVICE_MAX .ASIC_BM1397 204).GLOBAL_STATE.asic_model = .ASIC_BM1397 ∧
      (sampleWorld .DEVICE_MAX .ASIC_BM1397 204).GLOBAL_STATE.device_model = .DEVICE_MAX ∧
      (POWER_MANAGEMENT_cycle sampleConfig sampleLocals (sampleSensors 76 (6 / 5))
        (sampleWorld .DEVICE_MAX .ASIC_BM1397 204)).isExited = true :=
  ⟨rfl, rfl, (single_source_overheat_iff sampleConfig sampleLocals (sampleSensors 76 (6 / 5))
    (sampleWorld .DEVICE_MAX .ASIC_BM1397 204) rfl (Or.inl rfl)).2.2.2.2.2 rfl rfl
      (by simp [acquire_telemetry, sampleWorld, sampleSensors]; norm_num)⟩

/-- C2: dual-temperature-source family (ASIC BM1366 or BM1368 on a MAX, ULTRA,
SUPRA or HEX board). For every sample whose measured voltage is at or above
`TPS546_INIT_VOUT_MIN`, one poll cycle ends in the Overheat verdict if and only
if (regulator temperature > 105 or chip temperature average > 75) and
(frequency > 50 or voltage > 1000). On MAX, ULTRA and SUPRA boards of a revision
other than 402 the regulator temperature used is 0, so the verdict is Overheat
if and only if chip temperature average > 75 and the operating-point guard holds. -/
theorem dual_source_overheat_iff (c : BuildConfig) (l : Locals) (hw : Sensors) (w : World)
    (hasic : w.GLOBAL_STATE.asic_model = .ASIC_BM1366 ∨ w.GLOBAL_STATE.asic_model = .ASIC_BM1368)
    (hdev : w.GLOBAL_STATE.device_model = .DEVICE_MAX ∨
      w.GLOBAL_STATE.device_model = .DEVICE_ULTRA ∨
      w.GLOBAL_STATE.device_model = .DEVICE_SUPRA ∨
      w.GLOBAL_STATE.device_model = .DEVICE_HEX)
    (hv : c.TPS546_INIT_VOUT_MIN ≤ (acquire_telemetry hw w).pm.voltage) :
    ((POWER_MANAGEMENT_cycle c l hw w).isExited = true ↔
        ((POWER_MANAGEMENT_cycle c l hw w).world.pm.vr_temp > 105 ∨
            (POWER_MANAGEMENT_cycle c l hw w).world.pm.chip_temp_avg > 75) ∧
          (w.pm.frequency_value > 50 ∨ (acquire_telemetry hw w).pm.voltage > 1000)) ∧
      (POWER_MANAGEMENT_cycle c l hw w).world.pm.frequency_value = w.pm.frequency_value ∧
      (POWER_MANAGEMENT_cycle c l hw w).world.pm.voltage = (acquire_telemetry hw w).pm.voltage ∧
      (POWER_MANAGEMENT_cycle c l hw w).world.pm.vr_temp =
        (if w.GLOBAL_STATE.device_model = .DEVICE_HEX ∨ w.GLOBAL_STATE.board_version = 402
          then hw.TPS546_get_temperature else 0) ∧
      (POWER_MANAGEMENT_cycle c l hw w).world.pm.chip_temp_avg =
        (if w.GLOBAL_STATE.device_model = .DEVICE_HEX then
          (hw.TMP1075_read_temperature_again 0 + hw.TMP1075_read_temperature_again 1) / 2 + 5
         else if w.GLOBAL_STATE.board_version = 402 then hw.EMC2101_get_external_temp
         else hw.EMC2101_get_internal_temp + 5) ∧
      (w.GLOBAL_STATE.device_model ≠ .DEVICE_HEX → w.GLOBAL_STATE.board_version ≠ 402 →
        (POWER_MANAGEMENT_cycle c l hw w).world.pm.vr_temp = 0 ∧
        ((POWER_MANAGEMENT_cycle c l hw w).isExited = true ↔
          (POWER_MANAGEMENT_cycle c l hw w).world.pm.chip_temp_avg > 75 ∧
            (w.pm.frequency_value > 50 ∨ (acquire_telemetry hw w).pm.voltage > 1000))) := by
  have hasic2 : (acquire_telemetry hw w).GLOBAL_STATE.asic_model = .ASIC_BM1366 ∨
      (acquire_telemetry hw w).GLOBAL_STATE.asic_model = .ASIC_BM1368 := by
    rw [acquire_asic_model]; exact hasic
  have main : ((POWER_MANAGEMENT_cycle c l hw w).isExited = true ↔
        ((POWER_MANAGEMENT_cycle c l hw w).world.pm.vr_temp > 105 ∨
            (POWER_MANAGEMENT_cycle c l hw w).world.pm.chip_temp_avg > 75) ∧
          (w.pm.frequency_value > 50 ∨ (acquire_telemetry hw w).pm.voltage > 1000)) ∧
      (POWER_MANAGEMENT_cycle c l hw w).world.pm.frequency_value = w.pm.frequency_value ∧
      (POWER_MANAGEMENT_cycle c l hw w).world.pm.voltage = (acquire_telemetry hw w).pm.voltage ∧
      (POWER_MANAGEMENT_cycle c l hw w).world.pm.vr_temp =
        (if w.GLOBAL_STATE.device_model = .DEVICE_HEX ∨ w.GLOBAL_STATE.board_version = 402
          then hw.TPS546_get_temperature else 0) ∧
      (POWER_MANAGEMENT_cycle c l hw w).world.pm.chip_temp_avg =
        (if w.GLOBAL_STATE.device_model = .DEVICE_HEX then
          (hw.TMP1075_read_temperature_again 0 + hw.TMP1075_read_temperature_again 1) / 2 + 5
         else if w.GLOBAL_STATE.board_version = 402 then hw.EMC2101_get_external_temp
         else hw.EMC2101_get_internal_temp + 5) := by
    by_cases hhex : w.GLOBAL_STATE.device_model = .DEVICE_HEX
    · have key := overheat_check_dual_hex c hw (acquire_telemetry hw w) hasic2
        (by rw [acquire_device_model]; exact hhex)
      rw [acquire_frequency_value] at key
      obtain ⟨k1, k2, k3, k4, k5⟩ := key
      rw [cycle_isExited, cycle_pm]
      simp only [hhex, true_or, if_true]
      exact ⟨k1, k4, k5, k3, k2⟩
    · have hmax : w.GLOBAL_STATE.device_model = .DEVICE_MAX ∨
          w.GLOBAL_STATE.device_model = .DEVICE_ULTRA ∨
          w.GLOBAL_STATE.device_model = .DEVICE_SUPRA := by
        rcases hdev with h | h | h | h
        · exact Or.inl h
        · exact Or.inr (Or.inl h)
        · exact Or.inr (Or.inr h)
        · exact absurd h hhex
      have key := overheat_check_dual_max c hw (acquire_telemetry hw w) hasic2
        (by rw [acquire_device_model]; exact hmax)
      rw [acquire_frequency_value, acquire_board_version] at key
      obtain ⟨k1, k2, k3, k4, k5⟩ := key
      rw [cycle_isExited, cycle_pm]
      simp only [hhex, false_or, if_false]
      refine ⟨?_, k4, k5, k3, k2⟩
      rw [k1]
      constructor
      · exact fun h => h.2
      · exact fun h => ⟨not_lt.mpr hv, h⟩
  obtain ⟨m1, m2, m3, m4, m5⟩ := main
  refine ⟨m1, m2, m3, m4, m5, ?_⟩
  intro hhex hb
  have hz : (POWER_MANAGEMENT_cycle c l hw w).world.pm.vr_temp = 0 := by
    rw [m4]; simp [hhex, hb]
  refine ⟨hz, ?_⟩
  rw [m1, hz]
  constructor
  · rintro ⟨h1 | h1, h2⟩
    · exact absurd h1 (by norm_num)
    · exact ⟨h1, h2⟩
  · rintro ⟨h1, h2⟩
    exact ⟨Or.inr h1, h2⟩

theorem dual_source_overheat_iff_witness :
    (sampleWorld .DEVICE_SUPRA .ASIC_BM1368 402).GLOBAL_STATE.asic_model = .ASIC_BM1368 ∧
      (sampleWorld .DEVICE_SUPRA .ASIC_BM1368 402).GLOBAL_STATE.device_model = .DEVICE_SUPRA ∧
      sampleConfig.TPS546_INIT_VOUT_MIN ≤
        (acquire_telemetry (sampleSensors 110 5) (sampleWorld .DEVICE_SUPRA .ASIC_BM1368 402)).pm.voltage ∧
      (POWER_MANAGEMENT_cycle sampleConfig sampleLocals (sampleSensors 110 5)
        (sampleWorld .DEVICE_SUPRA .ASIC_BM1368 402)).isExited = true := by
  have hv : sampleConfig.TPS546_INIT_VOUT_MIN ≤
      (acquire_telemetry (sampleSensors 110 5) (sampleWorld .DEVICE_SUPRA .ASIC_BM1368 402)).pm.voltage := by
    simp [acquire_telemetry, sampleWorld, sampleSensors, sampleConfig]; norm_num
  have h := dual_source_overheat_iff sampleConfig sampleLocals (sampleSensors 110 5)
    (sampleWorld .DEVICE_SUPRA .ASIC_BM1368 402) (Or.inr rfl) (Or.inr (Or.inr (Or.inl rfl))) hv
  refine ⟨rfl, rfl, hv, h.1.mpr ⟨Or.inl ?_, Or.inl ?_⟩⟩
  · rw [h.2.2.2.1]
    norm_num [sampleWorld, sampleSensors]
  · norm_num [sampleWorld, sampleModule, World.pm]

/-- C3 (as stated, refuted): on the HEX board the overheat section has no
low-voltage short-circuit. With ASIC BM1366 on HEX, measured voltage 0 (below
the threshold 1), frequency 800 and every temperature source reporting 999, the
cycle ends in the Overheat verdict and latches the overheat flag. -/
theorem sensor_invalid_short_circuit_absent_on_hex :
    (acquire_telemetry (sampleSensors 999 0) (sampleWorld .DEVICE_HEX .ASIC_BM1366 0)).pm.voltage
        < sampleConfig.TPS546_INIT_VOUT_MIN ∧
      (POWER_MANAGEMENT_cycle sampleConfig sampleLocals (sampleSensors 999 0)
        (sampleWorld .DEVICE_HEX .ASIC_BM1366 0)).isExited = true := by
  constructor
  · simp [acquire_telemetry, sampleWorld, sampleSensors, sampleConfig]
  · rw [cycle_isExited]
    have key := overheat_check_dual_hex sampleConfig (sampleSensors 999 0)
      (acquire_telemetry (sampleSensors 999 0) (sampleWorld .DEVICE_HEX .ASIC_BM1366 0))
      (Or.inl (by rw [acquire_asic_model]; rfl)) (by rw [acquire_device_model]; rfl)
    obtain ⟨k1, _, k3, _, _⟩ := key
    rw [k1, k3, acquire_frequency_value]
    refine ⟨Or.inl ?_, Or.inl ?_⟩
    · simp [sampleSensors]; norm_num
    · simp [sampleWorld, sampleModule, World.pm]; norm_num

/-- C3 (amended): sensor-invalid short-circuit on the boards that read the chip
temperature from the EMC2101. For ASIC BM1366 or BM1368 on a MAX, ULTRA or SUPRA
board, whenever the measured voltage is below `TPS546_INIT_VOUT_MIN` the verdict
of the cycle is Normal for every reported temperature and every frequency: the
cycle does not exit, the configuration store is unchanged, and the only effects
of the cycle are the fan write of the fan policy (duty `fan_perc / 100`, with
`fan_perc` the curve value or the fixed value) and the plug-sense power-off. -/
theorem sensor_invalid_short_circuit (c : BuildConfig) (l : Locals) (hw : Sensors) (w : World)
    (hasic : w.GLOBAL_STATE.asic_model = .ASIC_BM1366 ∨ w.GLOBAL_STATE.asic_model = .ASIC_BM1368)
    (hdev : w.GLOBAL_STATE.device_model = .DEVICE_MAX ∨
      w.GLOBAL_STATE.device_model = .DEVICE_ULTRA ∨
      w.GLOBAL_STATE.device_model = .DEVICE_SUPRA)
    (hv : (acquire_telemetry hw w).pm.voltage < c.TPS546_INIT_VOUT_MIN) :
    (POWER_MANAGEMENT_cycle c l hw w).isExited = false ∧
      (POWER_MANAGEMENT_cycle c l hw w).world.nvs = w.nvs ∧
      (POWER_MANAGEMENT_cycle c l hw w).world.trace.filter Action.isEffect =
        w.trace.filter Action.isEffect ++
          [Action.EMC2101_set_fan_speed ((POWER_MANAGEMENT_cycle c l hw w).world.pm.fan_perc / 100)] ++
          (if w.pm.HAS_PLUG_SENSE = true ∧ hw.gpio_get_level GPIO_NUM_12 = 0 then
            [Action.gpio_set_level GPIO_NUM_10 1] else []) ∧
      (POWER_MANAGEMENT_cycle c l hw w).world.pm.fan_perc =
        (if l.auto_fan_speed = 1 then
          automatic_fan_speed_result (POWER_MANAGEMENT_cycle c l hw w).world.pm.chip_temp_avg
         else ((nvs_config_get_u16 w.nvs .NVS_CONFIG_FAN_SPEED 100 : Nat) : ℚ)) := by
  have key := (overheat_check_dual_max c hw (acquire_telemetry hw w)
    (by rw [acquire_asic_model]; exact hasic) (by rw [acquire_device_model]; exact hdev)).1
  have hx : (POWER_MANAGEMENT_cycle c l hw w).isExited = false := by
    rw [cycle_isExited]
    cases h : (overheat_check c hw (acquire_telemetry hw w)).isExited
    · rfl
    · exact absurd hv (key.mp h).1
  have hn := cycle_nvs c l hw w
  have he := cycle_effects c l hw w
  rw [hx] at hn he
  refine ⟨hx, by simpa using hn, ?_, cycle_fan_perc c l hw w hx⟩
  rw [he]
  rcases hdev with h | h | h <;> simp [h, fan_writes]

theorem sensor_invalid_short_circuit_witness :
    (sampleWorld .DEVICE_ULTRA .ASIC_BM1366 204).GLOBAL_STATE.asic_model = .ASIC_BM1366 ∧
      (sampleWorld .DEVICE_ULTRA .ASIC_BM1366 204).GLOBAL_STATE.device_model = .DEVICE_ULTRA ∧
      (acquire_telemetry (sampleSensors 999 0) (sampleWorld .DEVICE_ULTRA .ASIC_BM1366 204)).pm.voltage
        < sampleConfig.TPS546_INIT_VOUT_MIN ∧
      (POWER_MANAGEMENT_cycle sampleConfig sampleLocals (sampleSensors 999 0)
        (sampleWorld .DEVICE_ULTRA .ASIC_BM1366 204)).isExited = false :=
  ⟨rfl, rfl, by simp [acquire_telemetry, sampleWorld, sampleSensors, sampleConfig],
    (sensor_invalid_short_circuit sampleConfig sampleLocals (sampleSensors 999 0)
      (sampleWorld .DEVICE_ULTRA .ASIC_BM1366 204) (Or.inl rfl) (Or.inr (Or.inl rfl))
      (by simp [acquire_telemetry, sampleWorld, sampleSensors, sampleConfig])).1⟩

/-- C5 (as stated, refuted): in fixed fan mode with the persisted fan-speed 200
a Normal cycle stores the fan percentage 200, above 100. -/
theorem fixed_fan_percentage_exceeds_100 :
    (POWER_MANAGEMENT_cycle sampleConfig fixedFanLocals (sampleSensors 40 5) fixedFanWorld).isExited
        = false ∧
      (POWER_MANAGEMENT_cycle sampleConfig fixedFanLocals (sampleSensors 40 5)
        fixedFanWorld).world.pm.fan_perc = 200 ∧
      ¬ ((POWER_MANAGEMENT_cycle sampleConfig fixedFanLocals (sampleSensors 40 5)
        fixedFanWorld).world.pm.fan_perc ≤ 100) := by
  have hx : (POWER_MANAGEMENT_cycle sampleConfig fixedFanLocals (sampleSensors 40 5)
      fixedFanWorld).isExited = false := by
    rw [cycle_isExited]
    cases h : (overheat_check sampleConfig (sampleSensors 40 5)
        (acquire_telemetry (sampleSensors 40 5) fixedFanWorld)).isExited
    · rfl
    · have key := (overheat_check_bm1397 sampleConfig (sampleSensors 40 5)
        (acquire_telemetry (sampleSensors 40 5) fixedFanWorld)
        (by rw [acquire_asic_model]; rfl) (by rw [acquire_device_model]; exact Or.inl rfl)).1.mp h
      have h1 := key.1
      simp [sampleSensors] at h1
      norm_num at h1
  have hf := cycle_fan_perc sampleConfig fixedFanLocals (sampleSensors 40 5) fixedFanWorld hx
  have hv : (POWER_MANAGEMENT_cycle sampleConfig fixedFanLocals (sampleSensors 40 5)
        fixedFanWorld).world.pm.fan_perc = 200 := by
    rw [hf]
    simp [fixedFanLocals, fixedFanWorld, nvs_config_get_u16, nvs_config_set_u16]
  refine ⟨hx, hv, ?_⟩
  rw [hv]
  norm_num

/-- C5 (amended): the fan percentage of a Normal cycle. In automatic mode
(`auto_fan_speed = 1`) it is the curve value and lies in [35, 100] for every chip
temperature. In fixed mode it is the persisted fan-speed verbatim, a 16-bit
value in [0, 65535], so it lies in [0, 100] exactly when the persisted value is
at most 100. In both modes `fan_perc`, divided by 100, is what the fan actuators
of the device model receive. -/
theorem fan_percentage_range (c : BuildConfig) (l : Locals) (hw : Sensors) (w : World)
    (h : (POWER_MANAGEMENT_cycle c l hw w).isExited = false) :
    (l.auto_fan_speed = 1 →
        35 ≤ (POWER_MANAGEMENT_cycle c l hw w).world.pm.fan_perc ∧
        (POWER_MANAGEMENT_cycle c l hw w).world.pm.fan_perc ≤ 100) ∧
      (l.auto_fan_speed ≠ 1 →
        (POWER_MANAGEMENT_cycle c l hw w).world.pm.fan_perc =
          ((nvs_config_get_u16 w.nvs .NVS_CONFIG_FAN_SPEED 100 : Nat) : ℚ) ∧
        0 ≤ (POWER_MANAGEMENT_cycle c l hw w).world.pm.fan_perc ∧
        (POWER_MANAGEMENT_cycle c l hw w).world.pm.fan_perc ≤ 65535 ∧
        ((POWER_MANAGEMENT_cycle c l hw w).world.pm.fan_perc ≤ 100 ↔
          nvs_config_get_u16 w.nvs .NVS_CONFIG_FAN_SPEED 100 ≤ 100)) ∧
      (POWER_MANAGEMENT_cycle c l hw w).world.trace.filter Action.isFanWrite =
        w.trace.filter Action.isFanWrite ++
          fan_writes w.GLOBAL_STATE.device_model
            ((POWER_MANAGEMENT_cycle c l hw w).world.pm.fan_perc / 100) := by
  have hf := cycle_fan_perc c l hw w h
  refine ⟨?_, ?_, ?_⟩
  · intro ha
    rw [hf, if_pos ha]
    exact ⟨automatic_fan_speed_result_ge _, automatic_fan_speed_result_le _⟩
  · intro ha
    rw [hf, if_neg ha]
    refine ⟨rfl, Nat.cast_nonneg _, ?_, ?_⟩
    · have := nvs_get_le w.nvs .NVS_CONFIG_FAN_SPEED 100
      exact_mod_cast this
    · exact_mod_cast Iff.rfl
  · have he := cycle_effects c l hw w
    rw [h] at he
    rw [← filter_isFanWrite_of_effects, he]
    simp only [Bool.false_eq_true, if_false, List.filter_append, filter_isFanWrite_of_effects,
      fan_writes_filter_isFanWrite]
    split_ifs <;> simp [Action.isFanWrite]

/-- C6: for every variant and every initial content of the configuration store,
a cycle that ends in the Overheat verdict leaves a store that holds
asic-voltage = 1000, asic-frequency = 50, fan-speed = 100, auto-fan-enabled = 0,
overheat-latched = 1 and every other key unchanged; a second trip, from the world
the first one left and with any driver values, leaves exactly the same store
(the persistence step is idempotent). -/
theorem overheat_persists_safe_defaults (c : BuildConfig) (l : Locals) (hw : Sensors) (w : World)
    (h : (POWER_MANAGEMENT_cycle c l hw w).isExited = true) :
    (POWER_MANAGEMENT_cycle c l hw w).world.nvs .NVS_CONFIG_ASIC_VOLTAGE = some 1000 ∧
      (POWER_MANAGEMENT_cycle c l hw w).world.nvs .NVS_CONFIG_ASIC_FREQ = some 50 ∧
      (POWER_MANAGEMENT_cycle c l hw w).world.nvs .NVS_CONFIG_FAN_SPEED = some 100 ∧
      (POWER_MANAGEMENT_cycle c l hw w).world.nvs .NVS_CONFIG_AUTO_FAN_SPEED = some 0 ∧
      (POWER_MANAGEMENT_cycle c l hw w).world.nvs .NVS_CONFIG_OVERHEAT_MODE = some 1 ∧
      (∀ k : NvsKey, k ≠ .NVS_CONFIG_ASIC_VOLTAGE → k ≠ .NVS_CONFIG_ASIC_FREQ →
        k ≠ .NVS_CONFIG_FAN_SPEED → k ≠ .NVS_CONFIG_AUTO_FAN_SPEED →
        k ≠ .NVS_CONFIG_OVERHEAT_MODE →
        (POWER_MANAGEMENT_cycle c l hw w).world.nvs k = w.nvs k) ∧
      (∀ (c2 : BuildConfig) (l2 : Locals) (hw2 : Sensors),
        (POWER_MANAGEMENT_cycle c2 l2 hw2 (POWER_MANAGEMENT_cycle c l hw w).world).isExited = true →
        (POWER_MANAGEMENT_cycle c2 l2 hw2 (POWER_MANAGEMENT_cycle c l hw w).world).world.nvs =
          (POWER_MANAGEMENT_cycle c l hw w).world.nvs) := by
  have hn := cycle_nvs c l hw w
  rw [h, if_pos rfl] at hn
  refine ⟨?_, ?_, ?_, ?_, ?_, ?_, ?_⟩
  · rw [hn, safe_defaults_store_apply]; simp
  · rw [hn, safe_defaults_store_apply]; simp
  · rw [hn, safe_defaults_store_apply]; simp
  · rw [hn, safe_defaults_store_apply]; simp
  · rw [hn, safe_defaults_store_apply]; simp
  · intro k h1 h2 h3 h4 h5
    rw [hn, safe_defaults_store_apply]
    simp [h1, h2, h3, h4, h5]
  · intro c2 l2 hw2 h2
    have hn2 := cycle_nvs c2 l2 hw2 (POWER_MANAGEMENT_cycle c l hw w).world
    rw [h2, if_pos rfl, hn] at hn2
    rw [hn2, hn, safe_defaults_store_idem]

/-- C7 (evaluation at the failing input): ASIC BM1397 on a MAX board of revision
402, chip temperature 76, frequency 800. The cycle trips; its effects are the fan
write of duty 1, the five configuration writes and `exit`, with neither a
core-voltage command nor a GPIO 10 write in between. The same board with ASIC
BM1366 commands core voltage 0 after the fan write. -/
theorem overheat_bm1397_rev402_power_not_removed :
    (POWER_MANAGEMENT_init sampleConfig (sampleSensors 30 5)
        (sampleWorld .DEVICE_MAX .ASIC_BM1397 402)).2.pm.HAS_POWER_EN = false ∧
    (POWER_MANAGEMENT_task sampleConfig (sampleSensors 30 5) [sampleSensors 76 5]
        (sampleWorld .DEVICE_MAX .ASIC_BM1397 402)).isExited = true ∧
      (POWER_MANAGEMENT_task sampleConfig (sampleSensors 30 5) [sampleSensors 76 5]
        (sampleWorld .DEVICE_MAX .ASIC_BM1397 402)).world.trace.filter Action.isEffect =
        [Action.EMC2101_set_fan_speed 1,
         Action.nvs_config_set_u16 .NVS_CONFIG_ASIC_VOLTAGE 1000,
         Action.nvs_config_set_u16 .NVS_CONFIG_ASIC_FREQ 50,
         Action.nvs_config_set_u16 .NVS_CONFIG_FAN_SPEED 100,
         Action.nvs_config_set_u16 .NVS_CONFIG_AUTO_FAN_SPEED 0,
         Action.nvs_config_set_u16 .NVS_CONFIG_OVERHEAT_MODE 1,
         Action.exit] ∧
      (POWER_MANAGEMENT_cycle sampleConfig sampleLocals (sampleSensors 76 5)
        (sampleWorld .DEVICE_MAX .ASIC_BM1366 402)).world.trace.filter Action.isEffect =
        [Action.EMC2101_set_fan_speed 1,
         Action.VCORE_set_voltage 0,
         Action.nvs_config_set_u16 .NVS_CONFIG_ASIC_VOLTAGE 1000,
         Action.nvs_config_set_u16 .NVS_CONFIG_ASIC_FREQ 50,
         Action.nvs_config_set_u16 .NVS_CONFIG_FAN_SPEED 100,
         Action.nvs_config_set_u16 .NVS_CONFIG_AUTO_FAN_SPEED 0,
         Action.nvs_config_set_u16 .NVS_CONFIG_OVERHEAT_MODE 1,
         Action.exit] := by
  refine ⟨by decide, by decide, by decide, ?_⟩
  rw [cycle_effects, sample_max_bm1366_402_trips]
  decide

/-- C8 (as stated, refuted): in the run with chip temperatures 30, 50, 76
(ASIC BM1397 on MAX, revision 0, automatic fan, frequency 800) the third cycle
trips, and the fan percentage of the second cycle is 275/6 (about 45.8), not
58.3: the fan writes of the run are not the duties 35/100, 58.3/100, 100/100. -/
theorem end_to_end_second_percentage_not_58_3 :
    (POWER_MANAGEMENT_task sampleConfig (sampleSensors 30 5)
        [sampleSensors 30 5, sampleSensors 50 5, sampleSensors 76 5]
        (sampleWorld .DEVICE_MAX .ASIC_BM1397 0)).isExited = true ∧
      (POWER_MANAGEMENT_task sampleConfig (sampleSensors 30 5)
        [sampleSensors 30 5, sampleSensors 50 5]
        (sampleWorld .DEVICE_MAX .ASIC_BM1397 0)).world.pm.fan_perc = 275 / 6 ∧
      (POWER_MANAGEMENT_task sampleConfig (sampleSensors 30 5)
        [sampleSensors 30 5, sampleSensors 50 5]
        (sampleWorld .DEVICE_MAX .ASIC_BM1397 0)).world.pm.fan_perc ≠ 583 / 10 ∧
      (POWER_MANAGEMENT_task sampleConfig (sampleSensors 30 5)
        [sampleSensors 30 5, sampleSensors 50 5, sampleSensors 76 5]
        (sampleWorld .DEVICE_MAX .ASIC_BM1397 0)).world.trace.filter Action.isFanWrite ≠
        [Action.EMC2101_set_fan_speed (35 / 100),
         Action.EMC2101_set_fan_speed ((583 / 10) / 100),
         Action.EMC2101_set_fan_speed (100 / 100)] := by
  have h := three_cycle_run sampleConfig (sampleSensors 30 5) (sampleSensors 30 5)
    (sampleSensors 50 5) (sampleSensors 76 5) (sampleWorld .DEVICE_MAX .ASIC_BM1397 0) rfl
    (Or.inl rfl) (by decide) (by decide) rfl rfl rfl (Or.inl (by decide))
  obtain ⟨_, _, _, _, _, q2, q3, q4, _⟩ := h
  refine ⟨q3, q2, ?_, ?_⟩
  · rw [q2]; norm_num
  · rw [q4]
    simp [sampleWorld]
    norm_num

/-- C8 (amended): end-to-end run. ASIC BM1397 on a MAX, ULTRA or SUPRA board
(single fan) of a revision other than 202, 203, 204 (no plug-sense, no
power-enable), automatic fan mode, chip temperatures 30, 50, 76 over three
consecutive cycles, and an operating point above the guard (frequency above 50,
or the voltage measured in the third cycle above 1000). The first cycle is
Normal with fan percentage 35, the second is Normal with fan percentage
35 + (50 - 45) / 30 * 65 = 275/6 (about 45.8), the third trips: the fan writes of
the run are the duties 35/100, (275/6)/100 and 1, and the store the run leaves
holds asic-frequency = 50, asic-voltage = 1000, fan-speed = 100,
auto-fan-enabled = 0, overheat-latched = 1. -/
theorem end_to_end_run (c : BuildConfig) (boot s1 s2 s3 : Sensors) (w : World)
    (hasic : w.GLOBAL_STATE.asic_model = .ASIC_BM1397)
    (hdev : w.GLOBAL_STATE.device_model = .DEVICE_MAX ∨
      w.GLOBAL_STATE.device_model = .DEVICE_ULTRA ∨
      w.GLOBAL_STATE.device_model = .DEVICE_SUPRA)
    (hbv : w.GLOBAL_STATE.board_version ≠ 202 ∧ w.GLOBAL_STATE.board_version ≠ 203 ∧
      w.GLOBAL_STATE.board_version ≠ 204)
    (hauto : nvs_config_get_u16 w.nvs .NVS_CONFIG_AUTO_FAN_SPEED 1 = 1)
    (h1 : s1.EMC2101_get_external_temp = 30)
    (h2 : s2.EMC2101_get_external_temp = 50)
    (h3 : s3.EMC2101_get_external_temp = 76)
    (hg : 50 < w.pm.frequency_value ∨
      1000 < (acquire_telemetry s3 (POWER_MANAGEMENT_task c boot [s1, s2] w).world).pm.voltage) :
    (POWER_MANAGEMENT_init c boot w).2.pm.HAS_POWER_EN = false ∧
      (POWER_MANAGEMENT_init c boot w).2.pm.HAS_PLUG_SENSE = false ∧
      (POWER_MANAGEMENT_task c boot [s1] w).isExited = false ∧
      (POWER_MANAGEMENT_task c boot [s1] w).world.pm.fan_perc = 35 ∧
      (POWER_MANAGEMENT_task c boot [s1, s2] w).isExited = false ∧
      (POWER_MANAGEMENT_task c boot [s1, s2] w).world.pm.fan_perc = 275 / 6 ∧
      (POWER_MANAGEMENT_task c boot [s1, s2, s3] w).isExited = true ∧
      (POWER_MANAGEMENT_task c boot [s1, s2, s3] w).world.trace.filter Action.isFanWrite =
        w.trace.filter Action.isFanWrite ++
          [Action.EMC2101_set_fan_speed (35 / 100),
           Action.EMC2101_set_fan_speed ((275 / 6) / 100),
           Action.EMC2101_set_fan_speed 1] ∧
      (POWER_MANAGEMENT_task c boot [s1, s2, s3] w).world.nvs .NVS_CONFIG_ASIC_FREQ = some 50 ∧
      (POWER_MANAGEMENT_task c boot [s1, s2, s3] w).world.nvs .NVS_CONFIG_ASIC_VOLTAGE = some 1000 ∧
      (POWER_MANAGEMENT_task c boot [s1, s2, s3] w).world.nvs .NVS_CONFIG_FAN_SPEED = some 100 ∧
      (POWER_MANAGEMENT_task c boot [s1, s2, s3] w).world.nvs .NVS_CONFIG_AUTO_FAN_SPEED = some 0 ∧
      (POWER_MANAGEMENT_task c boot [s1, s2, s3] w).world.nvs .NVS_CONFIG_OVERHEAT_MODE = some 1 :=
  three_cycle_run c boot s1 s2 s3 w hasic hdev hbv hauto h1 h2 h3 hg

theorem end_to_end_run_witness :
    (sampleWorld .DEVICE_MAX .ASIC_BM1397 0).GLOBAL_STATE.asic_model = .ASIC_BM1397 ∧
      (sampleWorld .DEVICE_MAX .ASIC_BM1397 0).GLOBAL_STATE.device_model = .DEVICE_MAX ∧
      (sampleWorld .DEVICE_MAX .ASIC_BM1397 0).GLOBAL_STATE.board_version = 0 ∧
      nvs_config_get_u16 (sampleWorld .DEVICE_MAX .ASIC_BM1397 0).nvs
        .NVS_CONFIG_AUTO_FAN_SPEED 1 = 1 ∧
      (sampleSensors 30 5).EMC2101_get_external_temp = 30 ∧
      (sampleSensors 50 5).EMC2101_get_external_temp = 50 ∧
      (sampleSensors 76 5).EMC2101_get_external_temp = 76 ∧
      (50 : ℚ) < (sampleWorld .DEVICE_MAX .ASIC_BM1397 0).pm.frequency_value ∧
      (POWER_MANAGEMENT_task sampleConfig (sampleSensors 30 5)
        [sampleSensors 30 5, sampleSensors 50 5, sampleSensors 76 5]
        (sampleWorld .DEVICE_MAX .ASIC_BM1397 0)).isExited = true :=
  ⟨rfl, rfl, rfl, by decide, rfl, rfl, rfl, by decide,
    (end_to_end_run sampleConfig (sampleSensors 30 5) (sampleSensors 30 5) (sampleSensors 50 5)
      (sampleSensors 76 5) (sampleWorld .DEVICE_MAX .ASIC_BM1397 0) rfl (Or.inl rfl)
      (by decide) (by decide) rfl rfl rfl (Or.inl (by decide))).2.2.2.2.2.2.1⟩

theorem fan_percentage_range_witness :
    (POWER_MANAGEMENT_cycle sampleConfig sampleLocals (sampleSensors 60 5)
        (sampleWorld .DEVICE_MAX .ASIC_BM1397 0)).isExited = false ∧
      35 ≤ (POWER_MANAGEMENT_cycle sampleConfig sampleLocals (sampleSensors 60 5)
        (sampleWorld .DEVICE_MAX .ASIC_BM1397 0)).world.pm.fan_perc ∧
      (POWER_MANAGEMENT_cycle sampleConfig sampleLocals (sampleSensors 60 5)
        (sampleWorld .DEVICE_MAX .ASIC_BM1397 0)).world.pm.fan_perc ≤ 100 :=
  ⟨by decide,
    (fan_percentage_range sampleConfig sampleLocals (sampleSensors 60 5)
      (sampleWorld .DEVICE_MAX .ASIC_BM1397 0) (by decide)).1 rfl⟩

theorem overheat_persists_safe_defaults_witness :
    ((POWER_MANAGEMENT_cycle sampleConfig sampleLocals (sampleSensors 76 5)
          (sampleWorld .DEVICE_MAX .ASIC_BM1397 204)).isExited = true ∧
        (POWER_MANAGEMENT_cycle sampleConfig sampleLocals (sampleSensors 76 5)
          (sampleWorld .DEVICE_MAX .ASIC_BM1397 204)).world.nvs .NVS_CONFIG_OVERHEAT_MODE = some 1) ∧
      ((POWER_MANAGEMENT_cycle sampleConfig sampleLocals (sampleSensors 76 5)
          (sampleWorld .DEVICE_SUPRA .ASIC_BM1368 402)).isExited = true ∧
        (POWER_MANAGEMENT_cycle sampleConfig sampleLocals (sampleSensors 76 5)
          (sampleWorld .DEVICE_SUPRA .ASIC_BM1368 402)).world.nvs .NVS_CONFIG_OVERHEAT_MODE = some 1) ∧
      ((POWER_MANAGEMENT_cycle sampleConfig sampleLocals (sampleSensors 76 5)
          (sampleWorld .DEVICE_HEX .ASIC_BM1366 0)).isExited = true ∧
        (POWER_MANAGEMENT_cycle sampleConfig sampleLocals (sampleSensors 76 5)
          (sampleWorld .DEVICE_HEX .ASIC_BM1366 0)).world.nvs .NVS_CONFIG_OVERHEAT_MODE = some 1) :=
  ⟨⟨by decide, (overheat_persists_safe_defaults sampleConfig sampleLocals (sampleSensors 76 5)
      (sampleWorld .DEVICE_MAX .ASIC_BM1397 204) (by decide)).2.2.2.2.1⟩,
   ⟨sample_supra_402_trips,
    (overheat_persists_safe_defaults sampleConfig sampleLocals (sampleSensors 76 5)
      (sampleWorld .DEVICE_SUPRA .ASIC_BM1368 402) sample_supra_402_trips).2.2.2.2.1⟩,
   ⟨sample_hex_trips,
    (overheat_persists_safe_defaults sampleConfig sampleLocals (sampleSensors 76 5)
      (sampleWorld .DEVICE_HEX .ASIC_BM1366 0) sample_hex_trips).2.2.2.2.1⟩⟩

theorem automatic_fan_speed_monotone_witness :
    (50 : ℚ) ≤ 60 ∧
      (automatic_fan_speed 50 (sampleWorld .DEVICE_MAX .ASIC_BM1397 0)).1 ≤
        (automatic_fan_speed 60 (sampleWorld .DEVICE_HEX .ASIC_BM1366 0)).1 :=
  ⟨by decide, automatic_fan_speed_monotone 50 60 _ _ (by decide)⟩

/-- C9 (as stated, refuted): with a device model that is none of MAX, ULTRA,
SUPRA, HEX and board revision 204, the start-up section resolves
has_power_enable = true and has_plug_sense = true, and the poll cycle reads
GPIO 12. -/
theorem unknown_device_rev204_has_plug_sense :
    (POWER_MANAGEMENT_init sampleConfig (sampleSensors 30 5)
        (sampleWorld .DEVICE_UNKNOWN .ASIC_UNKNOWN 204)).2.pm.HAS_POWER_EN = true ∧
      (POWER_MANAGEMENT_init sampleConfig (sampleSensors 30 5)
        (sampleWorld .DEVICE_UNKNOWN .ASIC_UNKNOWN 204)).2.pm.HAS_PLUG_SENSE = true ∧
      (POWER_MANAGEMENT_task sampleConfig (sampleSensors 30 5) [sampleSensors 30 5]
        (sampleWorld .DEVICE_UNKNOWN .ASIC_UNKNOWN 204)).world.trace =
        [Action.nvs_config_get_u16 .NVS_CONFIG_ASIC_FREQ,
         Action.nvs_config_get_u16 .NVS_CONFIG_AUTO_FAN_SPEED,
         Action.vTaskDelay 3000,
         Action.gpio_get_level GPIO_NUM_12,
         Action.vTaskDelay POLL_RATE] := by
  decide

/-- C9 (amended): degradation for an unrecognised device model. For every board
revision and every device model that is none of MAX, ULTRA, SUPRA, HEX, the
capability flags are resolved from the board revision alone (has_power_enable
exactly for revisions 202, 203, 204; has_plug_sense exactly for revision 204),
and the task runs every poll cycle to its end without a trip: the store is
unchanged, each of the cycles reaches its delay, and no call of the start-up
section or of the cycles is a sensor read, a fan-actuator write or a
core-voltage write; when the revision is not 204 none is a GPIO access either. -/
theorem unknown_device_degrades (c : BuildConfig) (boot : Sensors) (cycles : List Sensors)
    (w : World) (hd : w.GLOBAL_STATE.device_model = .DEVICE_UNKNOWN) :
    (POWER_MANAGEMENT_init c boot w).2.pm.HAS_POWER_EN =
        decide (w.GLOBAL_STATE.board_version = 202 ∨ w.GLOBAL_STATE.board_version = 203 ∨
          w.GLOBAL_STATE.board_version = 204) ∧
      (POWER_MANAGEMENT_init c boot w).2.pm.HAS_PLUG_SENSE =
        decide (w.GLOBAL_STATE.board_version = 204) ∧
      (POWER_MANAGEMENT_task c boot cycles w).isExited = false ∧
      (POWER_MANAGEMENT_task c boot cycles w).world.nvs = w.nvs ∧
      ∃ seg, (POWER_MANAGEMENT_task c boot cycles w).world.trace = w.trace ++ seg ∧
        seg.count (Action.vTaskDelay POLL_RATE) = cycles.length ∧
        ∀ a ∈ seg, a.isSensorRead = false ∧ a.isFanWrite = false ∧
          a.isCoreVoltageWrite = false ∧
          (w.GLOBAL_STATE.board_version ≠ 204 → a.isGpioAccess = false) := by
  obtain ⟨f1, _, _, f4, _, f6, f7⟩ := init_frame c boot w
  obtain ⟨l1, l2, seg, l3, l4, l5⟩ := loop_unknown c (POWER_MANAGEMENT_init c boot w).1 cycles
    (POWER_MANAGEMENT_init c boot w).2 (by rw [f1, hd])
  refine ⟨f6, f7, l1, by rw [← f4]; exact l2, ?_⟩
  refine ⟨[Action.nvs_config_get_u16 .NVS_CONFIG_ASIC_FREQ,
       Action.nvs_config_get_u16 .NVS_CONFIG_AUTO_FAN_SPEED, Action.vTaskDelay 3000] ++ seg,
    ?_, ?_, ?_⟩
  · unfold POWER_MANAGEMENT_task
    simp only
    rw [l3, init_trace_unknown c boot w hd, List.append_assoc]
  · rw [List.count_append, l5]
    simp [List.count_cons, POLL_RATE]
  · intro a ha
    rcases List.mem_append.mp ha with h | h
    · simp at h
      rcases h with h | h | h <;> subst h <;>
        simp [Action.isSensorRead, Action.isFanWrite, Action.isCoreVoltageWrite,
          Action.isGpioAccess]
    · obtain ⟨p1, p2, p3, p4⟩ := l4 a h
      refine ⟨p1, p2, p3, ?_⟩
      intro hb
      apply p4
      rw [f7]
      simp [hb]

theorem unknown_device_degrades_witness :
    (sampleWorld .DEVICE_UNKNOWN .ASIC_BM1366 203).GLOBAL_STATE.device_model = .DEVICE_UNKNOWN ∧
      (POWER_MANAGEMENT_task sampleConfig (sampleSensors 30 5)
        [sampleSensors 80 5, sampleSensors 90 5]
        (sampleWorld .DEVICE_UNKNOWN .ASIC_BM1366 203)).isExited = false :=
  ⟨rfl, (unknown_device_degrades sampleConfig (sampleSensors 30 5)
    [sampleSensors 80 5, sampleSensors 90 5]
    (sampleWorld .DEVICE_UNKNOWN .ASIC_BM1366 203) rfl).2.2.1⟩

end PowerManagement
